import Mathlib

/-
Verification of the skytracer spectral volumetric path tracer against its
natural-language specification.

Shallow embedding conventions:
- C++ `float` arithmetic is embedded as exact real arithmetic over ℝ
  (every float literal of the source becomes the exact decimal it denotes);
- machine integers are embedded as ℕ / ℤ with explicit reduction mod 2^w
  where the C++ semantics wraps;
- the potentially non-terminating sampling loops of the integrator are
  embedded fuel-indexed, returning `Option` (`none` = the loop has not yet
  returned within the given number of iterations);
- virtual functions whose bodies live in translation units that are not part
  of the sources under verification (the aerosol cross-section tables and the
  concrete phase functions) are carried as opaque function-valued fields of
  the corresponding structures, exactly as the base-class code consumes them.
-/

namespace Skytracer

/-! ### Constants (common.hxx) -/

def EARTH_RADIUS : ℝ := 6371e3

def ATMOSPHERE_THICKNESS : ℝ := 1e5

def ATMOSPHERE_RADIUS : ℝ := EARTH_RADIUS + ATMOSPHERE_THICKNESS

/-- glm::vec3 specialised to the exact-real embedding. -/
structure Vec3 where
  x : ℝ
  y : ℝ
  z : ℝ

def EARTH_CENTER : Vec3 := ⟨0, 0, -EARTH_RADIUS⟩

def vadd (a b : Vec3) : Vec3 := ⟨a.x + b.x, a.y + b.y, a.z + b.z⟩

def vsub (a b : Vec3) : Vec3 := ⟨a.x - b.x, a.y - b.y, a.z - b.z⟩

def vsmul (s : ℝ) (a : Vec3) : Vec3 := ⟨s * a.x, s * a.y, s * a.z⟩

def dot (a b : Vec3) : ℝ := a.x * b.x + a.y * b.y + a.z * b.z

/-- `Ray` from common.hxx: origin and direction. -/
structure Ray where
  o : Vec3
  d : Vec3

/-- The point `ray.o + ray.d * t`. -/
def ray_point (ray : Ray) (t : ℝ) : Vec3 := vadd ray.o (vsmul t ray.d)

/-! ### Geometry (integrator.cxx, anonymous namespace) -/

/-- `ray_sphere_intersection(ray, sr)`: distance to the first intersection
with the sphere of radius `sr` centered at `EARTH_CENTER`, or -1 if there is
no intersection or the ray points away from the sphere. -/
noncomputable def ray_sphere_intersection (ray : Ray) (sr : ℝ) : ℝ :=
  let oc := vsub ray.o EARTH_CENTER
  let b := dot oc ray.d
  let c := dot oc oc - sr * sr
  if c > 0 ∧ b > 0 then -1
  else
    let d := b * b - c
    if d < 0 then -1
    else if d > b * b then -b + Real.sqrt d
    else -b - Real.sqrt d

/-- `scene_intersect(ray)`: returns `(t_max, intersected_earth)`.
Note: in the branch where the origin is outside the atmosphere, the source
constructs `Ray new_ray(ray.o + ray.d * atmos_t, ray.d)` and never uses it;
both following intersection tests run on the original `ray`, which is
reproduced faithfully here. -/
noncomputable def scene_intersect (ray : Ray) : ℝ × Bool :=
  let atmos_t := ray_sphere_intersection ray ATMOSPHERE_RADIUS
  if ray.o.z ≥ ATMOSPHERE_THICKNESS then
    if atmos_t < 0 then (-1, false)
    else
      let earth_t := ray_sphere_intersection ray EARTH_RADIUS
      if earth_t < 0 then (ray_sphere_intersection ray ATMOSPHERE_RADIUS, false)
      else (earth_t, true)
  else
    let earth_t := ray_sphere_intersection ray EARTH_RADIUS
    if earth_t < 0 then (atmos_t, false)
    else (earth_t, true)

/-! ### Monte Carlo tracking loops (integrator.cxx)

The two `do { ... } while(true)` loops are embedded fuel-indexed: the first
argument counts the remaining iterations the loop is allowed to perform, and
`none` means the loop was still running when the fuel ran out.  The sampler is
an infinite stream `u : ℕ → ℝ` of draws together with a cursor `i` pointing at
the next unconsumed draw. -/

/-- Loop body of `sample_interaction` (delta tracking): state is the current
distance `t` and the sampler cursor `i`.  `some r` is a `return r` of the C++
function (`r = -1` for the `break` path), `none` means fuel exhausted. -/
noncomputable def sample_interaction_loop (majorant : ℝ) (extinction : Vec3 → ℝ)
    (ray : Ray) (t_max : ℝ) (u : ℕ → ℝ) : ℕ → ℝ → ℕ → Option ℝ
  | 0, _, _ => none
  | fuel + 1, t, i =>
    let t1 := t - Real.log (1 - u i) / majorant
    if t1 ≥ t_max then some (-1)
    else
      let p := ray_point ray t1
      if u (i + 1) < max 0 (extinction p / majorant) then some t1
      else sample_interaction_loop majorant extinction ray t_max u fuel t1 (i + 2)

/-- `sample_interaction(atmosphere, sampler, ray, t_max, wl, p)` for a medium
presented by its majorant and extinction field, starting from `t = 0`. -/
noncomputable def sample_interaction (majorant : ℝ) (extinction : Vec3 → ℝ)
    (ray : Ray) (t_max : ℝ) (u : ℕ → ℝ) (fuel : ℕ) : Option ℝ :=
  sample_interaction_loop majorant extinction ray t_max u fuel 0 0

/-- Loop body of `transmittance` (ratio tracking): state is the running
product `Tr`, the current distance `t` and the sampler cursor `i`. -/
noncomputable def transmittance_loop (majorant : ℝ) (extinction : Vec3 → ℝ)
    (ray : Ray) (t_max : ℝ) (u : ℕ → ℝ) : ℕ → ℝ → ℝ → ℕ → Option ℝ
  | 0, _, _, _ => none
  | fuel + 1, Tr, t, i =>
    let t1 := t - Real.log (1 - u i) / majorant
    if t1 ≥ t_max then some Tr
    else
      let p := ray_point ray t1
      let Tr1 := Tr * (1 - max 0 (extinction p / majorant))
      transmittance_loop majorant extinction ray t_max u fuel Tr1 t1 (i + 1)

/-- `transmittance(atmosphere, sampler, ray, t_max, wl)` for a medium presented
by its majorant and extinction field, starting from `Tr = 1`, `t = 0`. -/
noncomputable def transmittance (majorant : ℝ) (extinction : Vec3 → ℝ)
    (ray : Ray) (t_max : ℝ) (u : ℕ → ℝ) (fuel : ℕ) : Option ℝ :=
  transmittance_loop majorant extinction ray t_max u fuel 1 0 0

/-! ### Lookup-table interpolation (lut.cxx) -/

/-- Scan for the first entry whose key is `≥ x` (the `lower_bound` of the
source) carrying the previous entry `prev`; interpolate when found, saturate
to the last value when the scan runs off the end. -/
noncomputable def lut_lerp_scan (x : ℝ) : ℝ × ℝ → List (ℝ × ℝ) → ℝ
  | prev, [] => prev.2
  | prev, (k, v) :: tl =>
    if x ≤ k then prev.2 + (v - prev.2) * (x - prev.1) / (k - prev.1)
    else lut_lerp_scan x (k, v) tl

/-- `lut_lerp(table, x)`: piecewise-linear interpolation with boundary
saturation, as in lut.cxx (out-of-range keys saturate to the first/last
value; an in-range key interpolates between its two bracketing entries). -/
noncomputable def lut_lerp (table : List (ℝ × ℝ)) (x : ℝ) : ℝ :=
  match table with
  | [] => 0
  | (k, v) :: tl => if x < k then v else lut_lerp_scan x (k, v) tl

/-! ### Atmosphere data tables (atmosphere.cxx, anonymous namespace) -/

-- Temperature and pressure for standard air
def Ts : ℝ := 288.15

def Ps : ℝ := 101325.0

/-- Rayleigh volume scattering coefficient beta_s (km^-1) for standard air,
wavelengths 200nm..4000nm (Bucholtz 1995). -/
def rayleigh_volume_scattering_lut : List (ℝ × ℝ) := [
  (200.0, 9.202e-1),
  (210.0, 7.225e-1),
  (220.0, 5.781e-1),
  (230.0, 4.691e-1),
  (240.0, 3.859e-1),
  (250.0, 3.208e-1),
  (260.0, 2.690e-1),
  (270.0, 2.277e-1),
  (280.0, 1.940e-1),
  (290.0, 1.665e-1),
  (300.0, 1.437e-1),
  (310.0, 1.249e-1),
  (320.0, 1.090e-1),
  (330.0, 9.557e-2),
  (340.0, 8.425e-2),
  (350.0, 7.450e-2),
  (360.0, 6.619e-2),
  (370.0, 5.901e-2),
  (380.0, 5.275e-2),
  (390.0, 4.734e-2),
  (400.0, 4.261e-2),
  (410.0, 3.845e-2),
  (420.0, 3.479e-2),
  (430.0, 3.156e-2),
  (440.0, 2.870e-2),
  (450.0, 2.616e-2),
  (460.0, 2.389e-2),
  (470.0, 2.187e-2),
  (480.0, 2.005e-2),
  (490.0, 1.842e-2),
  (500.0, 1.696e-2),
  (510.0, 1.564e-2),
  (520.0, 1.444e-2),
  (530.0, 1.336e-2),
  (540.0, 1.238e-2),
  (550.0, 1.149e-2),
  (560.0, 1.067e-2),
  (570.0, 9.927e-3),
  (580.0, 9.247e-3),
  (590.0, 8.624e-3),
  (600.0, 8.053e-3),
  (610.0, 7.530e-3),
  (620.0, 7.049e-3),
  (630.0, 6.605e-3),
  (640.0, 6.196e-3),
  (650.0, 5.819e-3),
  (660.0, 5.470e-3),
  (670.0, 5.146e-3),
  (680.0, 4.847e-3),
  (690.0, 4.568e-3),
  (700.0, 4.310e-3),
  (710.0, 4.069e-3),
  (720.0, 3.846e-3),
  (730.0, 3.637e-3),
  (740.0, 3.442e-3),
  (750.0, 3.261e-3),
  (760.0, 3.090e-3),
  (770.0, 2.931e-3),
  (780.0, 2.781e-3),
  (790.0, 2.641e-3),
  (800.0, 2.510e-3),
  (900.0, 1.561e-3),
  (1000.0, 1.022e-3),
  (1100.0, 6.964e-4),
  (1200.0, 4.909e-4),
  (1300.0, 3.560e-4),
  (1400.0, 2.644e-4),
  (1500.0, 2.005e-4),
  (1600.0, 1.548e-4),
  (1700.0, 1.214e-4),
  (1800.0, 9.656e-5),
  (1900.0, 7.775e-5),
  (2000.0, 6.331e-5),
  (2200.0, 4.322e-5),
  (2400.0, 3.050e-5),
  (2600.0, 2.214e-5),
  (2800.0, 1.646e-5),
  (3000.0, 1.249e-5),
  (3500.0, 6.737e-6),
  (4000.0, 3.948e-6)
]

/-- Temperature (K) as a function of height (km), US Standard Atmosphere 1976. -/
def standard_atmosphere_temperature_lut : List (ℝ × ℝ) := [
  (0.0, 288.15),
  (1.0, 281.65),
  (2.0, 275.15),
  (3.0, 268.65),
  (4.0, 262.15),
  (5.0, 255.65),
  (6.0, 249.15),
  (7.0, 242.65),
  (8.0, 236.15),
  (9.0, 229.65),
  (10.0, 223.15),
  (11.0, 216.65),
  (12.0, 216.65),
  (13.0, 216.65),
  (14.0, 216.65),
  (15.0, 216.65),
  (16.0, 216.65),
  (17.0, 216.65),
  (18.0, 216.65),
  (19.0, 216.65),
  (20.0, 216.65),
  (21.0, 217.65),
  (22.0, 218.65),
  (23.0, 219.65),
  (24.0, 220.65),
  (25.0, 221.65),
  (26.0, 222.65),
  (27.0, 223.65),
  (28.0, 224.65),
  (29.0, 225.65),
  (30.0, 226.65),
  (31.0, 227.65),
  (32.0, 228.65),
  (33.0, 231.45),
  (34.0, 234.25),
  (35.0, 237.05),
  (36.0, 239.85),
  (37.0, 242.65),
  (38.0, 245.45),
  (39.0, 248.25),
  (40.0, 251.05),
  (41.0, 253.85),
  (42.0, 256.65),
  (43.0, 259.45),
  (44.0, 262.25),
  (45.0, 265.05),
  (46.0, 267.85),
  (47.0, 270.65),
  (48.0, 270.65),
  (49.0, 270.65),
  (50.0, 270.65),
  (51.0, 270.65),
  (52.0, 267.85),
  (53.0, 265.05),
  (54.0, 262.25),
  (55.0, 259.45),
  (56.0, 256.65),
  (57.0, 253.85),
  (58.0, 251.05),
  (59.0, 248.25),
  (60.0, 245.45),
  (61.0, 242.65),
  (62.0, 239.85),
  (63.0, 237.05),
  (64.0, 234.25),
  (65.0, 231.45),
  (66.0, 228.65),
  (67.0, 225.85),
  (68.0, 223.05),
  (69.0, 220.25),
  (70.0, 217.45),
  (71.0, 214.65),
  (72.0, 212.65),
  (73.0, 210.65),
  (74.0, 208.65),
  (75.0, 206.65),
  (76.0, 204.65),
  (77.0, 202.65),
  (78.0, 200.65),
  (79.0, 198.65),
  (80.0, 196.65),
  (81.0, 194.65),
  (82.0, 192.65),
  (83.0, 190.65),
  (84.0, 188.65),
  (85.0, 186.946),
  (86.0, 186.946)
]

/-- Pressure (Pa) as a function of height (km), US Standard Atmosphere 1976. -/
def standard_atmosphere_pressure_lut : List (ℝ × ℝ) := [
  (0.0, 101325.0),
  (1.0, 89874.6),
  (2.0, 79495.2),
  (3.0, 70108.5),
  (4.0, 61640.2),
  (5.0, 54019.9),
  (6.0, 47181.0),
  (7.0, 41060.7),
  (8.0, 35599.8),
  (9.0, 30742.5),
  (10.0, 26436.3),
  (11.0, 22632.1),
  (12.0, 19330.4),
  (13.0, 16510.4),
  (14.0, 14101.8),
  (15.0, 12044.6),
  (16.0, 10287.5),
  (17.0, 8786.68),
  (18.0, 7504.84),
  (19.0, 6410.01),
  (20.0, 5474.89),
  (21.0, 4677.89),
  (22.0, 3999.79),
  (23.0, 3422.43),
  (24.0, 2930.49),
  (25.0, 2511.02),
  (26.0, 2153.09),
  (27.0, 1847.46),
  (28.0, 1586.29),
  (29.0, 1362.96),
  (30.0, 1171.87),
  (31.0, 1008.23),
  (32.0, 868.019),
  (33.0, 748.228),
  (34.0, 646.122),
  (35.0, 558.924),
  (36.0, 484.317),
  (37.0, 420.367),
  (38.0, 365.455),
  (39.0, 318.220),
  (40.0, 277.522),
  (41.0, 242.395),
  (42.0, 212.030),
  (43.0, 185.738),
  (44.0, 162.937),
  (45.0, 143.135),
  (46.0, 125.910),
  (47.0, 110.906),
  (48.0, 97.7545),
  (49.0, 86.1623),
  (50.0, 75.9448),
  (51.0, 66.9389),
  (52.0, 58.9622),
  (53.0, 51.8668),
  (54.0, 45.5632),
  (55.0, 39.9700),
  (56.0, 35.0137),
  (57.0, 30.6274),
  (58.0, 26.7509),
  (59.0, 23.3296),
  (60.0, 20.3143),
  (61.0, 17.6606),
  (62.0, 15.3287),
  (63.0, 13.2826),
  (64.0, 11.4900),
  (65.0, 9.92203),
  (66.0, 8.55275),
  (67.0, 7.35895),
  (68.0, 6.31992),
  (69.0, 5.41717),
  (70.0, 4.63422),
  (71.0, 3.95642),
  (72.0, 3.37176),
  (73.0, 2.86917),
  (74.0, 2.43773),
  (75.0, 2.06792),
  (76.0, 1.75140),
  (77.0, 1.48092),
  (78.0, 1.25012),
  (79.0, 1.05351),
  (80.0, 0.88628),
  (81.0, 0.74428),
  (82.0, 0.623905),
  (83.0, 0.522037),
  (84.0, 0.435981),
  (85.0, 0.36342),
  (86.0, 0.302723)
]

/-- Ozone absolute absorption cross-section in cm^2 (Gorshelev 2014). -/
def ozone_cross_section_lut : List (ℝ × ℝ) := [
  (244.0, 946e-20),
  (248.0, 1051e-20),
  (253.0, 1120e-20),
  (257.0, 1107e-20),
  (289.0, 151e-20),
  (296.0, 61.1e-20),
  (302.0, 29.6e-20),
  (365.0, 4.9e-23),
  (405.0, 1.46e-23),
  (455.0, 20.6e-23),
  (543.0, 3.08e-21),
  (576.0, 4.70e-21),
  (594.0, 4.63e-21),
  (604.0, 5.10e-21),
  (611.0, 4.54e-21),
  (632.0, 3.36e-21),
  (748.0, 4.38e-22),
  (755.0, 3.22e-22),
  (760.0, 2.77e-22),
  (765.0, 2.53e-22),
  (770.0, 2.49e-22),
  (779.0, 3.15e-22),
  (802.0, 1.45e-22),
  (817.0, 2.20e-22),
  (853.0, 1.46e-22),
  (877.0, 0.377e-22),
  (889.0, 0.510e-22),
  (898.0, 0.638e-22),
  (933.0, 0.162e-22),
  (944.0, 0.424e-22),
  (991.0, 0.407e-22),
  (1046.0, 0.0773e-22)
]

/-- Monthly mean values of total ozone in Arosa, in Dobson (Dutsch 1973). -/
def ozone_mean_monthly_dobson : Fin 12 → ℝ
  | 0 => 347 -- January
  | 1 => 370 -- February
  | 2 => 381 -- March
  | 3 => 384 -- April
  | 4 => 372 -- May
  | 5 => 352 -- June
  | 6 => 333 -- July
  | 7 => 317 -- August
  | 8 => 298 -- September
  | 9 => 285 -- October
  | 10 => 290 -- November
  | 11 => 315 -- December

/-! ### Aerosol (aerosol.hxx)

The nine concrete aerosol classes differ only in their cross-section tables
(bodies in aerosol.cxx, a translation unit outside the sources under
verification) and the four constructor constants; the coefficient formulas
below are the `Aerosol` base-class members.  The cross sections are therefore
opaque function-valued fields here, and the constants are ordinary fields. -/

structure Aerosol where
  turbidity : ℝ
  base_density : ℝ
  background_divided_by_base_density : ℝ
  height_scale : ℝ
  absorption_cross_section : ℝ → ℝ
  scattering_cross_section : ℝ → ℝ

/-- `Aerosol::get_density(height)`: exponential profile plus background,
height converted to km. -/
noncomputable def Aerosol.get_density (a : Aerosol) (height : ℝ) : ℝ :=
  a.base_density *
    (Real.exp (-(height * 1e-3) / a.height_scale) +
      a.background_divided_by_base_density)

noncomputable def Aerosol.get_absorption (a : Aerosol) (height wl : ℝ) : ℝ :=
  a.absorption_cross_section wl * a.get_density height * a.turbidity * 1e-3

noncomputable def Aerosol.get_scattering (a : Aerosol) (height wl : ℝ) : ℝ :=
  a.scattering_cross_section wl * a.get_density height * a.turbidity * 1e-3

noncomputable def Aerosol.get_extinction (a : Aerosol) (height wl : ℝ) : ℝ :=
  (a.absorption_cross_section wl + a.scattering_cross_section wl) *
    a.get_density height * a.turbidity * 1e-3

/-! ### GuimeraAtmosphere (atmosphere.cxx / atmosphere.hxx)

`_month` is `Fin 12` because the constructor clamps it into range before it is
ever used to index `ozone_mean_monthly_dobson`.  The two phase functions
(ChandrasekharPhase and HenyeyGreenstein, bodies in phase.cxx outside the
sources under verification) are opaque function-valued fields of type
(wo, wi, wl) ↦ density. -/

structure GuimeraAtmosphere where
  month : Fin 12
  aerosol : Option Aerosol
  phase_molecular : Vec3 → Vec3 → ℝ → ℝ
  phase_aerosol : Vec3 → Vec3 → ℝ → ℝ

/-- `Atmosphere::height_at_point(p)`: distance to the planet center minus the
planet radius. -/
noncomputable def height_at_point (p : Vec3) : ℝ :=
  Real.sqrt (dot (vsub p EARTH_CENTER) (vsub p EARTH_CENTER)) - EARTH_RADIUS

/-- `GuimeraAtmosphere::get_molecular_scattering(height, wl)`: Rayleigh
scattering scaled by the local/standard pressure-temperature ratio
(height converted to km, result converted from km^-1 to m^-1). -/
noncomputable def get_molecular_scattering (height wl : ℝ) : ℝ :=
  let heightKm := height * 1e-3
  let beta_s := lut_lerp rayleigh_volume_scattering_lut wl
  let T := lut_lerp standard_atmosphere_temperature_lut heightKm
  let P := lut_lerp standard_atmosphere_pressure_lut heightKm
  let beta := beta_s * (P / Ps) * (Ts / T)
  beta * 1e-3

/-- `GuimeraAtmosphere::get_ozone_height_distribution(height)`: six-band
piecewise-constant vertical ozone profile. -/
noncomputable def get_ozone_height_distribution (height : ℝ) : ℝ :=
  if height ≤ 9000 then 9 / 210
  else if height ≤ 18000 then 14 / 210
  else if height ≤ 27000 then 111 / 210
  else if height ≤ 36000 then 64 / 210
  else if height ≤ 45000 then 6 / 210
  else if height ≤ 54000 then 6 / 210
  else 0

/-- `GuimeraAtmosphere::get_molecular_absorption(height, wl)`: ozone
cross-section times an ozone number density derived from the monthly mean
column density redistributed by the vertical profile. -/
noncomputable def get_molecular_absorption (month : Fin 12) (height wl : ℝ) : ℝ :=
  let sigma_a := lut_lerp ozone_cross_section_lut wl * 1e-4
  let total_ozone := ozone_mean_monthly_dobson month * 2.6867e20
  let density := get_ozone_height_distribution height * total_ozone / 9e3
  sigma_a * density

noncomputable def GuimeraAtmosphere.get_scattering (g : GuimeraAtmosphere)
    (height wl : ℝ) : ℝ :=
  get_molecular_scattering height wl +
    match g.aerosol with
    | none => 0
    | some a => a.get_scattering height wl

noncomputable def GuimeraAtmosphere.get_absorption (g : GuimeraAtmosphere)
    (height wl : ℝ) : ℝ :=
  get_molecular_absorption g.month height wl +
    match g.aerosol with
    | none => 0
    | some a => a.get_absorption height wl

/-- `GuimeraAtmosphere::get_extinction(height, wl)`: molecular scattering plus
molecular absorption, plus (if configured) the aerosol extinction. -/
noncomputable def GuimeraAtmosphere.get_extinction (g : GuimeraAtmosphere)
    (height wl : ℝ) : ℝ :=
  get_molecular_scattering height wl + get_molecular_absorption g.month height wl +
    match g.aerosol with
    | none => 0
    | some a => a.get_extinction height wl

/-- `Atmosphere::get_max_extinction(wl)`: the extinction at ground level
(height 0), which the base class assumes to be the maximum.  The source
memoizes the last-queried wavelength in two function-local statics; the cached
value is always `get_extinction(0.0f, wl)`, which is what is embedded. -/
noncomputable def GuimeraAtmosphere.get_max_extinction (g : GuimeraAtmosphere)
    (wl : ℝ) : ℝ :=
  g.get_extinction 0 wl

/-- `GuimeraAtmosphere::phase_eval(p, sample, wo, wi, wl)`: with no aerosol the
molecular phase function, otherwise a stochastic choice between the molecular
and aerosol phase functions driven by the local scattering fractions. -/
noncomputable def GuimeraAtmosphere.phase_eval (g : GuimeraAtmosphere) (p : Vec3)
    (sample : ℝ) (wo wi : Vec3) (wl : ℝ) : ℝ :=
  match g.aerosol with
  | none => g.phase_molecular wo wi wl
  | some a =>
    let height := height_at_point p
    let molecular_scattering := get_molecular_scattering height wl
    let aerosol_scattering := a.get_scattering height wl
    let molecular_scattering_probability :=
      molecular_scattering / (molecular_scattering + aerosol_scattering)
    if sample < molecular_scattering_probability then g.phase_molecular wo wi wl
    else g.phase_aerosol wo wi wl

/-! ### GuimeraAtmosphere constructor (atmosphere.cxx)

The constructor is embedded as a total function producing the configured
state together with the warnings it prints: the month clamp, the selected
aerosol variant (identified by name; the concrete cross sections live in
aerosol.cxx outside the sources under verification) and the
unknown-aerosol-type fallback. -/

inductive AerosolKind
  | background
  | desert_dust
  | maritime_clean
  | maritime_mineral
  | polar_antarctic
  | polar_artic
  | remote_continental
  | rural
  | urban
deriving DecidableEq

/-- Result of running the `GuimeraAtmosphere` constructor: the clamped month,
the selected aerosol (variant and the turbidity it was constructed with), and
whether each of the two warnings was printed to stderr. -/
structure GuimeraConstructed where
  month : ℤ
  aerosol : Option (AerosolKind × ℝ)
  month_warning : Bool
  aerosol_warning : Bool

/-- The aerosol-selection chain of the constructor body: the selected variant
(with the turbidity it is constructed with) and whether the unknown-type
warning is printed. -/
def select_aerosol (turbidity : ℝ) (aerosol_type : String) :
    Option (AerosolKind × ℝ) × Bool :=
  if aerosol_type = "none" then (none, false)
  else if aerosol_type = "background" then (some (AerosolKind.background, turbidity), false)
  else if aerosol_type = "desert-dust" then (some (AerosolKind.desert_dust, turbidity), false)
  else if aerosol_type = "maritime-clean" then (some (AerosolKind.maritime_clean, turbidity), false)
  else if aerosol_type = "maritime-mineral" then (some (AerosolKind.maritime_mineral, turbidity), false)
  else if aerosol_type = "polar-antarctic" then (some (AerosolKind.polar_antarctic, turbidity), false)
  else if aerosol_type = "polar-artic" then (some (AerosolKind.polar_artic, turbidity), false)
  else if aerosol_type = "remote-continental" then (some (AerosolKind.remote_continental, turbidity), false)
  else if aerosol_type = "rural" then (some (AerosolKind.rural, turbidity), false)
  else if aerosol_type = "urban" then (some (AerosolKind.urban, turbidity), false)
  else (none, true)

/-- `GuimeraAtmosphere::GuimeraAtmosphere(month, turbidity, aerosol_type)`:
first the month check-and-clamp, then the aerosol selection. -/
def guimera_atmosphere_construct (month : ℤ) (turbidity : ℝ)
    (aerosol_type : String) : GuimeraConstructed :=
  let m : ℤ := if month < 0 ∨ month > 11 then 0 else month
  let aero := select_aerosol turbidity aerosol_type
  ⟨m, aero.1, decide (month < 0 ∨ month > 11), aero.2⟩

/-- The ten aerosol-type strings the constructor recognizes. -/
def recognized_aerosol_types : List String :=
  ["none", "background", "desert-dust", "maritime-clean", "maritime-mineral",
   "polar-antarctic", "polar-artic", "remote-continental", "rural", "urban"]

/-! ### Tile preparation (renderer.cxx) -/

/-- `Renderer::Tile`: an axis-aligned pixel rectangle [x0,x1) × [y0,y1). -/
structure Tile where
  x0 : ℕ
  x1 : ℕ
  y0 : ℕ
  y1 : ℕ
deriving DecidableEq

/-- `Renderer::prepare_tiles()`: partition the image into a row-major grid of
`tile_width × tile_height` tiles, the last row/column ending at the image
bounds.  All quantities are positive ints in the source, embedded as ℕ
(the `(a + b - 1) / b` ceiling division agrees with the C++ `int` one on
nonnegative values). -/
def prepare_tiles (image_width image_height tile_width tile_height : ℕ) :
    List Tile :=
  let x_tiles := (image_width + tile_width - 1) / tile_width
  let y_tiles := (image_height + tile_height - 1) / tile_height
  (List.range y_tiles).flatMap (fun j =>
    (List.range x_tiles).map (fun i =>
      { x0 := i * tile_width
        x1 := if i = x_tiles - 1 then image_width else i * tile_width + tile_width
        y0 := j * tile_height
        y1 := if j = y_tiles - 1 then image_height else j * tile_height + tile_height }))

/-- Membership of pixel `(x, y)` in a tile, exactly the loop bounds of
`render_tile` (`y0 ≤ y < y1`, `x0 ≤ x < x1`). -/
def tile_contains (t : Tile) (x y : ℕ) : Bool :=
  decide (t.x0 ≤ x ∧ x < t.x1 ∧ t.y0 ≤ y ∧ y < t.y1)

/-! ### pcg32 random stream (random.hxx)

`state` and `inc` are uint64 values, embedded as ℕ reduced mod 2^64; the
intermediate `xorshifted` is truncated to uint32 by its declaration in the
source, and the rotate is composed of uint32 shifts. -/

structure Pcg32 where
  state : ℕ
  inc : ℕ

/-- `pcg32::next_uint()`: PCG-XSH-RR output function and LCG state advance.
Returns the 32-bit output and the updated generator. -/
def Pcg32.next_uint (g : Pcg32) : ℕ × Pcg32 :=
  let oldstate := g.state % 2 ^ 64
  let newstate := (oldstate * 6364136223846793005 + g.inc) % 2 ^ 64
  let xorshifted := (((oldstate >>> 18) ^^^ oldstate) >>> 27) % 2 ^ 32
  let rot := oldstate >>> 59
  let out := (xorshifted >>> rot) ||| ((xorshifted <<< ((2 ^ 32 - rot) % 32)) % 2 ^ 32)
  (out, ⟨newstate, g.inc⟩)

/-- `pcg32::next_float()`: Sebastiano Vigna's uint-to-float conversion
`(next_uint() >> 8) * (1.0f / (1 << 24))`, exact in float and embedded in ℚ.
Returns the draw and the updated generator. -/
def Pcg32.next_float (g : Pcg32) : ℚ × Pcg32 :=
  let (u, g1) := g.next_uint
  ((u >>> 8 : ℕ) * ((1 : ℚ) / 2 ^ 24), g1)

/-! ### Auxiliary predicates and fixtures used by the statements below -/

/-- The ray parameter `t` lands on the sphere of radius `sr` centered at the
planet center (stated with squared distances, so no square root is needed). -/
def hits_sphere_at (ray : Ray) (sr t : ℝ) : Prop :=
  dot (vsub (ray_point ray t) EARTH_CENTER) (vsub (ray_point ray t) EARTH_CENTER)
    = sr * sr

/-- The local `b` of `ray_sphere_intersection`. -/
def ray_b (ray : Ray) : ℝ := dot (vsub ray.o EARTH_CENTER) ray.d

/-- The local `c` of `ray_sphere_intersection`. -/
def ray_c (ray : Ray) (sr : ℝ) : ℝ :=
  dot (vsub ray.o EARTH_CENTER) (vsub ray.o EARTH_CENTER) - sr * sr

/-- Keys of a lookup table are strictly increasing. -/
def lut_keys_sorted : List (ℝ × ℝ) → Prop
  | [] => True
  | [_] => True
  | (k, _) :: (k2, v2) :: tl => k < k2 ∧ lut_keys_sorted ((k2, v2) :: tl)

/-- Two lookup tables have pointwise equal keys, and at every node the scaled
value inequality `A * p ≤ B * t` holds. -/
def lut_pair_le (A B : ℝ) : List (ℝ × ℝ) → List (ℝ × ℝ) → Prop
  | [], [] => True
  | (kp, vp) :: ps, (kt, vt) :: ts => kp = kt ∧ A * vp ≤ B * vt ∧ lut_pair_le A B ps ts
  | _, _ => False

/-- Every value of a lookup table is at least `c`. -/
def lut_value_lower_bound (c : ℝ) : List (ℝ × ℝ) → Prop
  | [] => True
  | (_, v) :: tl => c ≤ v ∧ lut_value_lower_bound c tl

/-- A molecular-only January atmosphere (aerosol absent, phase functions
irrelevant to the coefficient queries). -/
noncomputable def bare_january_atmosphere : GuimeraAtmosphere :=
  ⟨0, none, fun _ _ _ => 0, fun _ _ _ => 1⟩

/-- An atmosphere with a configured aerosol whose cross sections vanish
(used to exercise the aerosol branch of `phase_eval` concretely). -/
noncomputable def zero_aerosol_atmosphere : GuimeraAtmosphere :=
  ⟨0, some ⟨1, 1, 0, 1, fun _ => 0, fun _ => 0⟩, fun _ _ _ => 0, fun _ _ _ => 1⟩

/-- A ray whose origin is in outer space (o.z ≥ ATMOSPHERE_THICKNESS) and whose
direction is the unit vector (3/5, 0, -4/5); it traverses the atmosphere shell
at perpendicular distance 84/85 · ATMOSPHERE_RADIUS from the planet center, so
it misses the ground sphere, entering the shell at t = 2500000 and leaving it
at t = 76149200/17. -/
noncomputable def space_grazing_ray : Ray :=
  ⟨⟨51375480 / 17, 0, 4380360 / 17⟩, ⟨3 / 5, 0, -4 / 5⟩⟩

/-! ## Theorems -/

/-! ### Random stream (C10) -/

theorem next_uint_lt_two_pow_32 (g : Pcg32) : (g.next_uint).1 < 2 ^ 32 := by
  have hshift : ∀ a b : ℕ, a >>> b ≤ a := by
    intro a b
    rw [Nat.shiftRight_eq_div_pow]
    exact Nat.div_le_self _ _
  simp only [Pcg32.next_uint]
  refine Nat.or_lt_two_pow (lt_of_le_of_lt (hshift _ _) ?_) ?_
  · exact Nat.mod_lt _ (by norm_num)
  · exact Nat.mod_lt _ (by norm_num)

/-- C10: every value returned by `pcg32::next_float` equals `k / 2^24` for some
integer `0 ≤ k < 2^24`; it therefore lies in `[0, 1)`, is never `1`, and
`1 - next_float()` is strictly positive (so the `logf(1 - u)` computed by the
delta-tracking/ratio-tracking step formula is taken of a positive argument). -/
theorem c10_next_float_is_small_dyadic (g : Pcg32) :
    ∃ k : ℕ, k < 2 ^ 24 ∧ (g.next_float).1 = (k : ℚ) / 2 ^ 24 ∧
      0 ≤ (g.next_float).1 ∧ (g.next_float).1 < 1 ∧ 0 < 1 - (g.next_float).1 := by
  have hu : (g.next_uint).1 < 2 ^ 32 := next_uint_lt_two_pow_32 g
  have hval : (g.next_float).1 = ((g.next_uint).1 >>> 8 : ℕ) * ((1 : ℚ) / 2 ^ 24) := by
    unfold Pcg32.next_float
    rfl
  refine ⟨(g.next_uint).1 >>> 8, ?_, ?_, ?_, ?_, ?_⟩
  · rw [Nat.shiftRight_eq_div_pow]
    omega
  · rw [hval]; ring
  · rw [hval]; positivity
  · rw [hval]
    have hk : ((g.next_uint).1 >>> 8 : ℕ) < 2 ^ 24 := by
      rw [Nat.shiftRight_eq_div_pow]; omega
    have : (((g.next_uint).1 >>> 8 : ℕ) : ℚ) < 2 ^ 24 := by exact_mod_cast hk
    rw [mul_one_div, div_lt_one (by positivity)]
    exact this
  · have hk : ((g.next_uint).1 >>> 8 : ℕ) < 2 ^ 24 := by
      rw [Nat.shiftRight_eq_div_pow]; omega
    have : (((g.next_uint).1 >>> 8 : ℕ) : ℚ) < 2 ^ 24 := by exact_mod_cast hk
    rw [hval]
    rw [mul_one_div]
    have : (((g.next_uint).1 >>> 8 : ℕ) : ℚ) / 2 ^ 24 < 1 := by
      rw [div_lt_one (by positivity)]; exact this
    linarith

/-! ### Extinction decomposition (C3) -/

/-- C3: for every height and wavelength, `GuimeraAtmosphere` satisfies
`get_extinction = get_absorption + get_scattering` exactly, both with and
without a configured aerosol (the aerosol case holds because the base class
computes its extinction from the sum of the two cross sections). -/
theorem c3_extinction_eq_absorption_add_scattering (g : GuimeraAtmosphere)
    (height wl : ℝ) :
    g.get_extinction height wl =
      g.get_absorption height wl + g.get_scattering height wl := by
  unfold GuimeraAtmosphere.get_extinction GuimeraAtmosphere.get_absorption
    GuimeraAtmosphere.get_scattering
  cases g.aerosol with
  | none => ring
  | some a =>
    unfold Aerosol.get_extinction Aerosol.get_absorption Aerosol.get_scattering
    ring

/-! ### Constructor fallback behavior (C8) -/

/-- C8: the `GuimeraAtmosphere` constructor recovers from bad configuration
instead of failing: an unrecognized aerosol-type string yields no configured
aerosol together with a warning, and an out-of-range month is clamped to 0
(January) together with a warning; the constructor is total, so construction
completes normally in both cases. -/
theorem c8_constructor_recovers_from_bad_config (month : ℤ) (turbidity : ℝ)
    (aerosol_type : String) :
    (aerosol_type ∉ recognized_aerosol_types →
      (guimera_atmosphere_construct month turbidity aerosol_type).aerosol = none ∧
      (guimera_atmosphere_construct month turbidity aerosol_type).aerosol_warning
        = true) ∧
    (month < 0 ∨ 11 < month →
      (guimera_atmosphere_construct month turbidity aerosol_type).month = 0 ∧
      (guimera_atmosphere_construct month turbidity aerosol_type).month_warning
        = true) := by
  constructor
  · intro hstr
    simp only [recognized_aerosol_types, List.mem_cons, List.not_mem_nil, or_false,
      not_or] at hstr
    obtain ⟨h1, h2, h3, h4, h5, h6, h7, h8, h9, h10⟩ := hstr
    have hsel : select_aerosol turbidity aerosol_type = (none, true) := by
      unfold select_aerosol
      rw [if_neg h1, if_neg h2, if_neg h3, if_neg h4, if_neg h5, if_neg h6,
        if_neg h7, if_neg h8, if_neg h9, if_neg h10]
    unfold guimera_atmosphere_construct
    rw [hsel]
    exact ⟨rfl, rfl⟩
  · intro hm
    unfold guimera_atmosphere_construct
    refine ⟨?_, ?_⟩
    · simp only [if_pos hm]
    · simp only [decide_eq_true_eq]
      exact hm

/-- Witness for C8 at a concrete bad configuration: the unrecognized string
"volcanic" and the out-of-range month 12. -/
theorem c8_witness :
    (guimera_atmosphere_construct 12 1 "volcanic").aerosol = none ∧
    (guimera_atmosphere_construct 12 1 "volcanic").aerosol_warning = true ∧
    (guimera_atmosphere_construct 12 1 "volcanic").month = 0 ∧
    (guimera_atmosphere_construct 12 1 "volcanic").month_warning = true := by
  have h := c8_constructor_recovers_from_bad_config 12 1 "volcanic"
  have h1 := h.1 (by decide)
  have h2 := h.2 (by decide)
  exact ⟨h1.1, h1.2, h2.1, h2.2⟩

/-! ### Ratio tracking over a zero-length segment (C7) -/

/-- C7: ratio-tracking transmittance over a zero-length segment (`t_max = 0`)
returns exactly `1` for every sampler stream with draws in `[0, 1)`, provided
the majorant is strictly positive: the first exponential step already reaches
`t ≥ t_max`, so the loop breaks before the running product is ever
multiplied. -/
theorem c7_transmittance_zero_length_is_one (majorant : ℝ) (extinction : Vec3 → ℝ)
    (ray : Ray) (u : ℕ → ℝ) (fuel : ℕ)
    (hmaj : 0 < majorant) (hu : ∀ i, 0 ≤ u i ∧ u i < 1) :
    transmittance majorant extinction ray 0 u (fuel + 1) = some 1 := by
  unfold transmittance
  simp only [transmittance_loop]
  have hlog : Real.log (1 - u 0) ≤ 0 :=
    Real.log_nonpos (by linarith [(hu 0).2]) (by linarith [(hu 0).1])
  have hstep : 0 - Real.log (1 - u 0) / majorant ≥ 0 := by
    have : Real.log (1 - u 0) / majorant ≤ 0 := div_nonpos_of_nonpos_of_nonneg hlog hmaj.le
    linarith
  rw [if_pos hstep]

/-- Witness for C7: a concrete run (majorant 1, all-zero draws, one unit of
fuel) returning transmittance exactly 1. -/
theorem c7_witness :
    transmittance 1 (fun _ => 0) ⟨⟨0, 0, 0⟩, ⟨0, 0, 1⟩⟩ 0 (fun _ => 0) 1 = some 1 :=
  c7_transmittance_zero_length_is_one 1 (fun _ => 0) ⟨⟨0, 0, 0⟩, ⟨0, 0, 1⟩⟩
    (fun _ => 0) 0 (by norm_num) (fun i => by norm_num)

/-! ### Delta tracking through a vacuum (C6) -/

theorem sample_interaction_loop_zero_extinction (majorant : ℝ)
    (extinction : Vec3 → ℝ) (ray : Ray) (t_max : ℝ) (u : ℕ → ℝ)
    (hext : ∀ p, extinction p = 0) (hu : ∀ i, 0 ≤ u i) :
    ∀ (fuel : ℕ) (t : ℝ) (i : ℕ),
      sample_interaction_loop majorant extinction ray t_max u fuel t i = none ∨
      sample_interaction_loop majorant extinction ray t_max u fuel t i = some (-1) := by
  intro fuel
  induction fuel with
  | zero => intro t i; left; rfl
  | succ n ih =>
    intro t i
    simp only [sample_interaction_loop]
    by_cases hbreak : t - Real.log (1 - u i) / majorant ≥ t_max
    · right; rw [if_pos hbreak]
    · rw [if_neg hbreak]
      have haccept : ¬ u (i + 1) <
          max 0 (extinction (ray_point ray (t - Real.log (1 - u i) / majorant)) / majorant) := by
        rw [hext, zero_div, max_self]
        exact not_lt.mpr (hu (i + 1))
      rw [if_neg haccept]
      exact ih _ _

/-- C6: delta-tracking free-path sampling over a medium whose extinction is
identically zero never accepts an interaction: however much fuel the loop is
given, it either is still running (`none`) or has returned the no-interaction
sentinel `-1`; it never returns an interaction distance.  (Termination itself
is probabilistic: the all-zeros draw sequence makes the C++ loop spin forever,
which the fuel-indexed embedding renders as `none` for every fuel.) -/
theorem c6_delta_tracking_vacuum_no_interaction (majorant : ℝ)
    (extinction : Vec3 → ℝ) (ray : Ray) (t_max : ℝ) (u : ℕ → ℝ) (fuel : ℕ)
    (hmaj : 0 < majorant) (hext : ∀ p, extinction p = 0)
    (hu : ∀ i, 0 ≤ u i ∧ u i < 1) :
    sample_interaction majorant extinction ray t_max u fuel = none ∨
    sample_interaction majorant extinction ray t_max u fuel = some (-1) := by
  unfold sample_interaction
  exact sample_interaction_loop_zero_extinction majorant extinction ray t_max u
    hext (fun i => (hu i).1) fuel 0 0

/-- Witness for C6: a concrete vacuum run (majorant 1, all-zero draws). -/
theorem c6_witness :
    sample_interaction 1 (fun _ => 0) ⟨⟨0, 0, 0⟩, ⟨0, 0, 1⟩⟩ 1 (fun _ => 0) 3 = none ∨
    sample_interaction 1 (fun _ => 0) ⟨⟨0, 0, 0⟩, ⟨0, 0, 1⟩⟩ 1 (fun _ => 0) 3 = some (-1) :=
  c6_delta_tracking_vacuum_no_interaction 1 (fun _ => 0) ⟨⟨0, 0, 0⟩, ⟨0, 0, 1⟩⟩ 1
    (fun _ => 0) 3 (by norm_num) (fun _ => rfl) (fun i => by norm_num)

/-! ### Ray-sphere intersection (C4) -/

/-- For a unit direction, landing on the sphere at parameter `t` is equivalent
to the quadratic equation `t² + 2 b t + c = 0` with the `b`, `c` computed by
`ray_sphere_intersection`. -/
theorem hits_sphere_at_iff_quadratic (ray : Ray) (sr t : ℝ)
    (hunit : dot ray.d ray.d = 1) :
    hits_sphere_at ray sr t ↔
      t ^ 2 + 2 * ray_b ray * t + ray_c ray sr = 0 := by
  obtain ⟨⟨ox, oy, oz⟩, ⟨dx, dy, dz⟩⟩ := ray
  unfold dot at hunit
  unfold hits_sphere_at ray_b ray_c ray_point vadd vsmul vsub dot EARTH_CENTER
  simp only
  constructor <;> intro h
  · linear_combination h - t ^ 2 * hunit
  · linear_combination h + t ^ 2 * hunit

/-- The value `ray_sphere_intersection` computes in each arm of its
conditional, written with `ray_b` and `ray_c`. -/
theorem ray_sphere_intersection_eq (ray : Ray) (sr : ℝ) :
    ray_sphere_intersection ray sr =
      if ray_c ray sr > 0 ∧ ray_b ray > 0 then -1
      else if ray_b ray * ray_b ray - ray_c ray sr < 0 then -1
      else if ray_b ray * ray_b ray - ray_c ray sr > ray_b ray * ray_b ray then
        -ray_b ray + Real.sqrt (ray_b ray * ray_b ray - ray_c ray sr)
      else -ray_b ray - Real.sqrt (ray_b ray * ray_b ray - ray_c ray sr) := by
  rfl

/-- C4 (amended): for every ray with unit direction and every radius,
`ray_sphere_intersection` either returns the nearest non-negative hit distance,
or returns a strictly negative no-hit value.  The no-hit value is the sentinel
`-1` whenever the origin is not exactly on the sphere; in the measure-zero
configuration where the origin lies exactly on the sphere (`c = 0`) and the
ray points away from the center (`b > 0`), the function instead returns
`-2b < 0` — a negative number other than `-1` — even though `t = 0` is a
geometrically legitimate zero-distance hit.  (The original claim, that the
result is never a negative number other than `-1`, fails exactly there.) -/
theorem c4_ray_sphere_intersection_contract (ray : Ray) (sr : ℝ)
    (hunit : dot ray.d ray.d = 1) :
    (ray_c ray sr = 0 ∧ 0 < ray_b ray →
      ray_sphere_intersection ray sr = -(2 * ray_b ray) ∧
      ray_sphere_intersection ray sr < 0) ∧
    (¬ (ray_c ray sr = 0 ∧ 0 < ray_b ray) →
      (0 ≤ ray_sphere_intersection ray sr ∧
        hits_sphere_at ray sr (ray_sphere_intersection ray sr) ∧
        (∀ t, 0 ≤ t → t < ray_sphere_intersection ray sr →
          ¬ hits_sphere_at ray sr t)) ∨
      (ray_sphere_intersection ray sr = -1 ∧
        ∀ t, 0 ≤ t → ¬ hits_sphere_at ray sr t)) := by
  rw [ray_sphere_intersection_eq]
  have hq := fun t => hits_sphere_at_iff_quadratic ray sr t hunit
  set b := ray_b ray with hb
  set c := ray_c ray sr with hc
  constructor
  · rintro ⟨hc0, hb0⟩
    rw [hc0]
    have h1 : ¬ ((0:ℝ) > 0 ∧ b > 0) := by simp
    rw [if_neg h1]
    have h2 : ¬ (b * b - 0 < 0) := by nlinarith
    rw [if_neg h2]
    have h3 : ¬ (b * b - 0 > b * b) := by nlinarith
    rw [if_neg h3]
    have h4 : Real.sqrt (b * b - 0) = b := by
      rw [sub_zero, Real.sqrt_mul_self hb0.le]
    rw [h4]
    constructor
    · ring
    · linarith
  · intro hedge
    by_cases hcb : c > 0 ∧ b > 0
    · -- pointing away from a sphere the origin is strictly outside of
      rw [if_pos hcb]
      right
      refine ⟨rfl, fun t ht hhit => ?_⟩
      rw [hq t] at hhit
      nlinarith [hcb.1, hcb.2, sq_nonneg t]
    · rw [if_neg hcb]
      by_cases hd : b * b - c < 0
      · -- the discriminant is negative: the line misses the sphere
        rw [if_pos hd]
        right
        refine ⟨rfl, fun t ht hhit => ?_⟩
        rw [hq t] at hhit
        nlinarith [sq_nonneg (t + b)]
      · rw [if_neg hd]
        have hdnn : 0 ≤ b * b - c := not_lt.mp hd
        have hsq : Real.sqrt (b * b - c) * Real.sqrt (b * b - c) = b * b - c :=
          Real.mul_self_sqrt hdnn
        have hsnn : 0 ≤ Real.sqrt (b * b - c) := Real.sqrt_nonneg _
        by_cases hgt : b * b - c > b * b
        · -- origin strictly inside: return the far (only nonnegative) root
          rw [if_pos hgt]
          left
          have hcneg : c < 0 := by linarith
          have habs : |b| < Real.sqrt (b * b - c) := by
            have h1 : |b| = Real.sqrt (b * b) := (Real.sqrt_mul_self_eq_abs b).symm
            rw [h1]
            exact Real.sqrt_lt_sqrt (mul_self_nonneg b) (by linarith)
          have hlb : -Real.sqrt (b * b - c) < b := by
            cases abs_lt.mp habs; linarith
          have hub : b < Real.sqrt (b * b - c) := by
            cases abs_lt.mp habs; linarith
          refine ⟨by linarith, ?_, ?_⟩
          · rw [hq]
            linear_combination hsq
          · intro t ht hlt
            rw [hq t]
            intro hzero
            have h1 : t + b < Real.sqrt (b * b - c) := by linarith
            have h2 : -Real.sqrt (b * b - c) < t + b := by linarith
            nlinarith
        · -- origin outside (or on) the sphere, not pointing away: near root
          rw [if_neg hgt]
          left
          have hcnn : 0 ≤ c := by linarith
          have hble : b ≤ 0 := by
            by_contra hbpos
            push_neg at hbpos
            rcases lt_or_eq_of_le hcnn with h | h
            · exact hcb ⟨h, hbpos⟩
            · exact hedge ⟨h.symm, hbpos⟩
          have hsle : Real.sqrt (b * b - c) ≤ -b := by
            have h1 : Real.sqrt (b * b - c) ≤ Real.sqrt (b * b) :=
              Real.sqrt_le_sqrt (by linarith)
            have h2 : Real.sqrt (b * b) = |b| := Real.sqrt_mul_self_eq_abs b
            rw [h2, abs_of_nonpos hble] at h1
            exact h1
          refine ⟨by linarith, ?_, ?_⟩
          · rw [hq]
            linear_combination hsq
          · intro t ht hlt
            rw [hq t]
            intro hzero
            have h1 : t + b < -Real.sqrt (b * b - c) := by linarith
            nlinarith

/-- Counterexample for C4 as frozen: for the ray starting exactly on the
ground sphere and pointing straight up (away from the center),
`ray_sphere_intersection` returns `-2 · EARTH_RADIUS = -12742000`: a negative
number different from the sentinel `-1`, although `t = 0` is a legitimate
zero-distance hit of the sphere. -/
theorem c4_counterexample :
    ray_sphere_intersection ⟨⟨0, 0, 0⟩, ⟨0, 0, 1⟩⟩ EARTH_RADIUS = -12742000 ∧
    ray_sphere_intersection ⟨⟨0, 0, 0⟩, ⟨0, 0, 1⟩⟩ EARTH_RADIUS < 0 ∧
    ray_sphere_intersection ⟨⟨0, 0, 0⟩, ⟨0, 0, 1⟩⟩ EARTH_RADIUS ≠ -1 ∧
    hits_sphere_at ⟨⟨0, 0, 0⟩, ⟨0, 0, 1⟩⟩ EARTH_RADIUS 0 := by
  have hb : ray_b ⟨⟨0, 0, 0⟩, ⟨0, 0, 1⟩⟩ = 6371000 := by
    unfold ray_b vsub dot EARTH_CENTER EARTH_RADIUS
    norm_num
  have hc : ray_c ⟨⟨0, 0, 0⟩, ⟨0, 0, 1⟩⟩ EARTH_RADIUS = 0 := by
    unfold ray_c vsub dot EARTH_CENTER EARTH_RADIUS
    norm_num
  have hcontract := (c4_ray_sphere_intersection_contract ⟨⟨0, 0, 0⟩, ⟨0, 0, 1⟩⟩
    EARTH_RADIUS (by unfold dot; norm_num)).1 (by rw [hb, hc]; norm_num)
  rw [hb] at hcontract
  refine ⟨by rw [hcontract.1]; norm_num, by rw [hcontract.1]; norm_num,
    by rw [hcontract.1]; norm_num, ?_⟩
  unfold hits_sphere_at ray_point vadd vsmul vsub dot EARTH_CENTER EARTH_RADIUS
  norm_num

/-- Witness for C4 (amended): the contract instantiated at the same concrete
on-sphere ray, exhibiting the `-2b` arm. -/
theorem c4_witness :
    ray_sphere_intersection ⟨⟨0, 0, 0⟩, ⟨0, 0, 1⟩⟩ EARTH_RADIUS =
      -(2 * ray_b ⟨⟨0, 0, 0⟩, ⟨0, 0, 1⟩⟩) ∧
    ray_sphere_intersection ⟨⟨0, 0, 0⟩, ⟨0, 0, 1⟩⟩ EARTH_RADIUS < 0 := by
  have hb : ray_b ⟨⟨0, 0, 0⟩, ⟨0, 0, 1⟩⟩ = 6371000 := by
    unfold ray_b vsub dot EARTH_CENTER EARTH_RADIUS
    norm_num
  have hc : ray_c ⟨⟨0, 0, 0⟩, ⟨0, 0, 1⟩⟩ EARTH_RADIUS = 0 := by
    unfold ray_c vsub dot EARTH_CENTER EARTH_RADIUS
    norm_num
  exact (c4_ray_sphere_intersection_contract ⟨⟨0, 0, 0⟩, ⟨0, 0, 1⟩⟩ EARTH_RADIUS
    (by unfold dot; norm_num)).1 (by rw [hb, hc]; norm_num)

/-! ### Scene intersection from outer space (C1) -/

/-- C1 (code bug): for `space_grazing_ray` — origin in outer space, direction
hitting the atmosphere shell but missing the ground sphere —
`scene_intersect` returns `t_max = 2500000` with the ground flag false.
`2500000` is the distance to the *entry* point into the atmosphere: the ray is
still crossing the atmosphere sphere at the strictly larger parameter
`76149200/17`, and crosses it nowhere beyond that, so the exit distance is
`76149200/17 ≈ 4479364.7`, not the returned value.  The spec mandates the exit
distance here; the source computes the displaced ray `new_ray` for exactly
this purpose and then accidentally intersects the original ray again. -/
theorem c1_scene_intersect_space_ray_returns_entry_distance :
    scene_intersect space_grazing_ray = (2500000, false) ∧
    hits_sphere_at space_grazing_ray ATMOSPHERE_RADIUS 2500000 ∧
    hits_sphere_at space_grazing_ray ATMOSPHERE_RADIUS (76149200 / 17) ∧
    (2500000 : ℝ) < 76149200 / 17 ∧
    (∀ t : ℝ, 76149200 / 17 < t →
      ¬ hits_sphere_at space_grazing_ray ATMOSPHERE_RADIUS t) := by
  have hunit : dot space_grazing_ray.d space_grazing_ray.d = 1 := by
    unfold space_grazing_ray dot
    norm_num
  have hbv : ray_b space_grazing_ray = -59324600 / 17 := by
    unfold ray_b space_grazing_ray vsub dot EARTH_CENTER EARTH_RADIUS
    norm_num
  have hcA : ray_c space_grazing_ray ATMOSPHERE_RADIUS = 190373000000000 / 17 := by
    unfold ray_c space_grazing_ray vsub dot EARTH_CENTER ATMOSPHERE_RADIUS
      ATMOSPHERE_THICKNESS EARTH_RADIUS
    norm_num
  have hcE : ray_c space_grazing_ray EARTH_RADIUS = 212204400000000 / 17 := by
    unfold ray_c space_grazing_ray vsub dot EARTH_CENTER EARTH_RADIUS
    norm_num
  have hrsiA : ray_sphere_intersection space_grazing_ray ATMOSPHERE_RADIUS
      = 2500000 := by
    rw [ray_sphere_intersection_eq, hbv, hcA]
    rw [if_neg (by norm_num), if_neg (by norm_num), if_neg (by norm_num)]
    rw [show (-59324600 / 17 : ℝ) * (-59324600 / 17) - 190373000000000 / 17
        = (84123000 / 85) ^ 2 by norm_num]
    rw [Real.sqrt_sq (by norm_num)]
    norm_num
  have hrsiE : ray_sphere_intersection space_grazing_ray EARTH_RADIUS = -1 := by
    rw [ray_sphere_intersection_eq, hbv, hcE]
    rw [if_neg (by norm_num), if_pos (by norm_num)]
  have hquad := fun t => hits_sphere_at_iff_quadratic space_grazing_ray
    ATMOSPHERE_RADIUS t hunit
  refine ⟨?_, ?_, ?_, by norm_num, ?_⟩
  · unfold scene_intersect
    rw [hrsiA, hrsiE]
    have hout : space_grazing_ray.o.z ≥ ATMOSPHERE_THICKNESS := by
      unfold space_grazing_ray ATMOSPHERE_THICKNESS
      norm_num
    rw [if_pos hout, if_neg (by norm_num : ¬ (2500000 : ℝ) < 0),
      if_pos (by norm_num : (-1 : ℝ) < 0)]
  · rw [hquad, hbv, hcA]
    norm_num
  · rw [hquad, hbv, hcA]
    norm_num
  · intro t ht
    rw [hquad, hbv, hcA]
    have hfact : t ^ 2 + 2 * (-59324600 / 17) * t + 190373000000000 / 17
        = (t - 2500000) * (t - 76149200 / 17) := by ring
    rw [hfact]
    have h1 : (0 : ℝ) < t - 2500000 := by linarith
    have h2 : (0 : ℝ) < t - 76149200 / 17 := by linarith
    exact ne_of_gt (mul_pos h1 h2)

/-! ### Concrete lookup-table evaluations (shared helpers) -/

theorem temperature_lut_at_0 :
    lut_lerp standard_atmosphere_temperature_lut 0 = 288.15 := by
  norm_num [standard_atmosphere_temperature_lut, lut_lerp, lut_lerp_scan]

theorem pressure_lut_at_0 :
    lut_lerp standard_atmosphere_pressure_lut 0 = 101325.0 := by
  norm_num [standard_atmosphere_pressure_lut, lut_lerp, lut_lerp_scan]

theorem rayleigh_lut_at_200 :
    lut_lerp rayleigh_volume_scattering_lut 200 = 9.202e-1 := by
  norm_num [rayleigh_volume_scattering_lut, lut_lerp, lut_lerp_scan]

theorem sqrt_sub_eq_zero (x y : ℝ) (h : x = y ^ 2) (hy : 0 ≤ y) :
    Real.sqrt x - y = 0 := by
  rw [h, Real.sqrt_sq hy, sub_self]

/-- Sea level is height 0 above the surface. -/
theorem height_at_point_origin : height_at_point ⟨0, 0, 0⟩ = 0 := by
  unfold height_at_point vsub dot EARTH_CENTER EARTH_RADIUS
  exact sqrt_sub_eq_zero _ _ (by norm_num) (by norm_num)

theorem molecular_scattering_at_0_200 :
    get_molecular_scattering 0 200 = 9.202e-4 := by
  simp only [get_molecular_scattering]
  rw [show (0 : ℝ) * 1e-3 = 0 by norm_num, rayleigh_lut_at_200,
    temperature_lut_at_0, pressure_lut_at_0]
  norm_num [Ts, Ps]

/-! ### Phase-function mixture selection (C5) -/

/-- C5: with no aerosol configured, `phase_eval` always returns the molecular
phase function value; with an aerosol configured and a strictly positive total
scattering at the queried point, it returns the molecular phase value exactly
when the supplied uniform sample is below
`molecular_scattering / (molecular_scattering + aerosol_scattering)` and the
aerosol phase value otherwise. -/
theorem c5_phase_eval_stochastic_mixture (g : GuimeraAtmosphere) (p : Vec3)
    (sample : ℝ) (wo wi : Vec3) (wl : ℝ) :
    (g.aerosol = none →
      g.phase_eval p sample wo wi wl = g.phase_molecular wo wi wl) ∧
    (∀ a, g.aerosol = some a →
      0 < get_molecular_scattering (height_at_point p) wl +
          a.get_scattering (height_at_point p) wl →
      ((sample < get_molecular_scattering (height_at_point p) wl /
          (get_molecular_scattering (height_at_point p) wl +
            a.get_scattering (height_at_point p) wl) →
        g.phase_eval p sample wo wi wl = g.phase_molecular wo wi wl) ∧
       (¬ sample < get_molecular_scattering (height_at_point p) wl /
          (get_molecular_scattering (height_at_point p) wl +
            a.get_scattering (height_at_point p) wl) →
        g.phase_eval p sample wo wi wl = g.phase_aerosol wo wi wl))) := by
  constructor
  · intro hnone
    unfold GuimeraAtmosphere.phase_eval
    rw [hnone]
  · intro a ha _hpos
    unfold GuimeraAtmosphere.phase_eval
    rw [ha]
    constructor
    · intro hlt
      simp only [if_pos hlt]
    · intro hge
      simp only [if_neg hge]

/-- Witness for C5: the aerosol branch exercised at sea level and wavelength
200nm on an atmosphere whose aerosol has vanishing cross sections, where
`molecular/(molecular + aerosol) = 1`, so the sample `1/2` selects the
molecular phase function. -/
theorem c5_witness :
    zero_aerosol_atmosphere.aerosol
      = some ⟨1, 1, 0, 1, fun _ => 0, fun _ => 0⟩ ∧
    0 < get_molecular_scattering (height_at_point ⟨0, 0, 0⟩) 200 +
        (⟨1, 1, 0, 1, fun _ => 0, fun _ => 0⟩ : Aerosol).get_scattering
          (height_at_point ⟨0, 0, 0⟩) 200 ∧
    zero_aerosol_atmosphere.phase_eval ⟨0, 0, 0⟩ (1 / 2) ⟨0, 0, 1⟩ ⟨0, 0, 1⟩ 200
      = zero_aerosol_atmosphere.phase_molecular ⟨0, 0, 1⟩ ⟨0, 0, 1⟩ 200 := by
  have hgs : (⟨1, 1, 0, 1, fun _ => 0, fun _ => 0⟩ : Aerosol).get_scattering
      (height_at_point ⟨0, 0, 0⟩) 200 = 0 := by
    unfold Aerosol.get_scattering
    norm_num
  have hpos : 0 < get_molecular_scattering (height_at_point ⟨0, 0, 0⟩) 200 +
      (⟨1, 1, 0, 1, fun _ => 0, fun _ => 0⟩ : Aerosol).get_scattering
        (height_at_point ⟨0, 0, 0⟩) 200 := by
    rw [hgs, height_at_point_origin, molecular_scattering_at_0_200]
    norm_num
  have hlt : (1 / 2 : ℝ) < get_molecular_scattering (height_at_point ⟨0, 0, 0⟩) 200 /
      (get_molecular_scattering (height_at_point ⟨0, 0, 0⟩) 200 +
        (⟨1, 1, 0, 1, fun _ => 0, fun _ => 0⟩ : Aerosol).get_scattering
          (height_at_point ⟨0, 0, 0⟩) 200) := by
    rw [hgs, height_at_point_origin, molecular_scattering_at_0_200]
    norm_num
  exact ⟨rfl, hpos,
    ((c5_phase_eval_stochastic_mixture zero_aerosol_atmosphere ⟨0, 0, 0⟩ (1 / 2)
      ⟨0, 0, 1⟩ ⟨0, 0, 1⟩ 200).2 ⟨1, 1, 0, 1, fun _ => 0, fun _ => 0⟩ rfl hpos).1 hlt⟩

/-! ### Tile partition (C9) -/

theorem nat_lt_div_add_one_mul_self (a b : ℕ) (hb : 0 < b) :
    a < (a / b + 1) * b := by
  have h1 : b * (a / b) + a % b = a := Nat.div_add_mod a b
  have h2 : a % b < b := Nat.mod_lt a hb
  calc a = b * (a / b) + a % b := h1.symm
    _ < b * (a / b) + b := by omega
    _ = (a / b + 1) * b := by ring

theorem countP_range_of_unique (q : ℕ → Bool) :
    ∀ (n i0 : ℕ), i0 < n → (∀ i, i < n → (q i = true ↔ i = i0)) →
      (List.range n).countP q = 1 := by
  intro n
  induction n with
  | zero => intro i0 h0; omega
  | succ m ih =>
    intro i0 h0 hq
    rw [List.range_succ, List.countP_append]
    rcases Nat.lt_or_ge i0 m with hlt | hge
    · have hm : q m = false := by
        rcases Bool.eq_false_or_eq_true (q m) with h | h
        · exact absurd ((hq m (Nat.lt_succ_self m)).mp h) (by omega)
        · exact h
      rw [ih i0 hlt (fun i hi => hq i (by omega))]
      simp [hm]
    · have hi0 : i0 = m := by omega
      have hm : q m = true := (hq m (Nat.lt_succ_self m)).mpr hi0.symm
      have hze : (List.range m).countP q = 0 := by
        rw [List.countP_eq_zero]
        intro a ha
        rw [List.mem_range] at ha
        intro habs
        have := (hq a (by omega)).mp habs
        omega
      rw [hze]
      simp [hm]

theorem sum_map_indicator_eq_countP (q : ℕ → Bool) (l : List ℕ) :
    (l.map fun a => if q a then 1 else 0).sum = l.countP q := by
  induction l with
  | nil => rfl
  | cons a tl ih =>
    rw [List.map_cons, List.sum_cons, List.countP_cons, ih]
    rcases Bool.eq_false_or_eq_true (q a) with h | h
    · simp [h, Nat.add_comm]
    · simp [h]

theorem grid_index_lt (W tw x : ℕ) (htw : 0 < tw) (hx : x < W) :
    x / tw < (W + tw - 1) / tw := by
  have hW : 0 < W := by omega
  have hrw : W + tw - 1 = W - 1 + tw := by omega
  rw [hrw, Nat.add_div_right _ htw]
  have : x / tw ≤ (W - 1) / tw := Nat.div_le_div_right (by omega)
  omega

theorem grid_interval_iff (W tw x : ℕ) (htw : 0 < tw) (hx : x < W) :
    ∀ i, i < (W + tw - 1) / tw →
      ((i * tw ≤ x ∧
        x < (if i = (W + tw - 1) / tw - 1 then W else i * tw + tw))
        ↔ i = x / tw) := by
  intro i hi
  constructor
  · rintro ⟨hlo, hhi⟩
    by_cases hlast : i = (W + tw - 1) / tw - 1
    · have h1 : i ≤ x / tw := (Nat.le_div_iff_mul_le htw).mpr hlo
      have h2 : x / tw < (W + tw - 1) / tw := grid_index_lt W tw x htw hx
      omega
    · rw [if_neg hlast] at hhi
      have : x / tw = i :=
        Nat.div_eq_of_lt_le hlo (by rw [Nat.succ_mul]; omega)
      omega
  · rintro rfl
    refine ⟨Nat.div_mul_le_self x tw, ?_⟩
    by_cases hlast : x / tw = (W + tw - 1) / tw - 1
    · rw [if_pos hlast]
      exact hx
    · rw [if_neg hlast]
      have := nat_lt_div_add_one_mul_self x tw htw
      rw [Nat.succ_mul] at this
      omega

theorem grid_count_one (W tw x : ℕ) (htw : 0 < tw) (hx : x < W) :
    (List.range ((W + tw - 1) / tw)).countP
      (fun i => decide (i * tw ≤ x ∧
        x < (if i = (W + tw - 1) / tw - 1 then W else i * tw + tw))) = 1 := by
  apply countP_range_of_unique _ _ (x / tw) (grid_index_lt W tw x htw hx)
  intro i hi
  rw [decide_eq_true_eq]
  exact grid_interval_iff W tw x htw hx i hi

theorem prepare_tiles_pixel_count (W H tw th x y : ℕ)
    (htw : 0 < tw) (hth : 0 < th) (hx : x < W) (hy : y < H) :
    (prepare_tiles W H tw th).countP (fun t => tile_contains t x y) = 1 := by
  unfold prepare_tiles
  rw [List.countP_flatMap]
  have hinner : ∀ j ∈ List.range ((H + th - 1) / th),
      ((List.countP fun t => tile_contains t x y) ∘ fun j =>
        (List.range ((W + tw - 1) / tw)).map (fun i =>
          ({ x0 := i * tw
             x1 := if i = (W + tw - 1) / tw - 1 then W else i * tw + tw
             y0 := j * th
             y1 := if j = (H + th - 1) / th - 1 then H else j * th + th } : Tile))) j
        = if decide (j * th ≤ y ∧
            y < (if j = (H + th - 1) / th - 1 then H else j * th + th))
          then (1 : ℕ) else 0 := by
    intro j hj
    show ((List.range ((W + tw - 1) / tw)).map (fun i =>
          ({ x0 := i * tw
             x1 := if i = (W + tw - 1) / tw - 1 then W else i * tw + tw
             y0 := j * th
             y1 := if j = (H + th - 1) / th - 1 then H else j * th + th } : Tile))).countP
        (fun t => tile_contains t x y) = _
    rw [List.countP_map]
    set Y1 := (if j = (H + th - 1) / th - 1 then H else j * th + th) with hY1
    by_cases hrow : j * th ≤ y ∧ y < Y1
    · rw [if_pos (by rw [decide_eq_true_eq]; exact hrow)]
      have hcong : ∀ i ∈ List.range ((W + tw - 1) / tw),
          (((fun t => tile_contains t x y) ∘ fun i =>
            ({ x0 := i * tw
               x1 := if i = (W + tw - 1) / tw - 1 then W else i * tw + tw
               y0 := j * th
               y1 := Y1 } : Tile)) i = true)
          ↔ ((fun i => decide (i * tw ≤ x ∧
              x < (if i = (W + tw - 1) / tw - 1 then W else i * tw + tw))) i = true) := by
        intro i _
        simp only [Function.comp_apply, tile_contains, decide_eq_true_eq]
        constructor
        · rintro ⟨h1, h2, _, _⟩; exact ⟨h1, h2⟩
        · rintro ⟨h1, h2⟩; exact ⟨h1, h2, hrow.1, hrow.2⟩
      rw [List.countP_congr hcong]
      exact grid_count_one W tw x htw hx
    · rw [if_neg (by rw [decide_eq_true_eq]; exact hrow)]
      rw [List.countP_eq_zero]
      intro i hi
      simp only [Function.comp_apply, tile_contains, decide_eq_true_eq]
      rintro ⟨_, _, h3, h4⟩
      exact hrow ⟨h3, h4⟩
  rw [List.map_congr_left hinner]
  rw [sum_map_indicator_eq_countP]
  apply countP_range_of_unique _ _ (y / th) (grid_index_lt H th y hth hy)
  intro j hj
  rw [decide_eq_true_eq]
  exact grid_interval_iff H th y hth hy j hj

/-- C9: for positive image and tile dimensions, `prepare_tiles` produces a
partition of the pixel rectangle `[0,W) × [0,H)`: every pixel is contained in
exactly one tile of the list (counted with multiplicity), every tile stays
inside the image bounds and is nonempty with dimensions at most the configured
ones, tiles not in the last column (`x1 ≠ W`) have width exactly `tile_width`,
and tiles not in the last row (`y1 ≠ H`) have height exactly `tile_height`
(only the last row/column tiles are clipped, to the image bounds). -/
theorem c9_prepare_tiles_partition (W H tw th : ℕ)
    (hW : 0 < W) (hH : 0 < H) (htw : 0 < tw) (hth : 0 < th) :
    (∀ x y, x < W → y < H →
      (prepare_tiles W H tw th).countP (fun t => tile_contains t x y) = 1) ∧
    (∀ t ∈ prepare_tiles W H tw th,
      t.x1 ≤ W ∧ t.y1 ≤ H ∧ t.x0 < t.x1 ∧ t.y0 < t.y1 ∧
      t.x1 ≤ t.x0 + tw ∧ t.y1 ≤ t.y0 + th ∧
      (t.x1 ≠ W → t.x1 = t.x0 + tw) ∧ (t.y1 ≠ H → t.y1 = t.y0 + th)) := by
  constructor
  · intro x y hx hy
    exact prepare_tiles_pixel_count W H tw th x y htw hth hx hy
  · intro t ht
    unfold prepare_tiles at ht
    rw [List.mem_flatMap] at ht
    obtain ⟨j, hj, ht⟩ := ht
    rw [List.mem_map] at ht
    obtain ⟨i, hi, rfl⟩ := ht
    rw [List.mem_range] at hj hi
    have hxt_pos : 0 < (W + tw - 1) / tw := by
      have h := grid_index_lt W tw 0 htw hW
      omega
    have hyt_pos : 0 < (H + th - 1) / th := by
      have h := grid_index_lt H th 0 hth hH
      omega
    have hxt_le : ((W + tw - 1) / tw) * tw ≤ W + tw - 1 := Nat.div_mul_le_self _ _
    have hyt_le : ((H + th - 1) / th) * th ≤ H + th - 1 := Nat.div_mul_le_self _ _
    have hxt_ge : W ≤ ((W + tw - 1) / tw) * tw := by
      have h1 := nat_lt_div_add_one_mul_self (W + tw - 1) tw htw
      rw [Nat.succ_mul] at h1
      omega
    have hyt_ge : H ≤ ((H + th - 1) / th) * th := by
      have h1 := nat_lt_div_add_one_mul_self (H + th - 1) th hth
      rw [Nat.succ_mul] at h1
      omega
    have hxsplit : ((W + tw - 1) / tw - 1) * tw + tw = ((W + tw - 1) / tw) * tw := by
      have h : (W + tw - 1) / tw - 1 + 1 = (W + tw - 1) / tw := by omega
      calc ((W + tw - 1) / tw - 1) * tw + tw = ((W + tw - 1) / tw - 1 + 1) * tw := by ring
        _ = ((W + tw - 1) / tw) * tw := by rw [h]
    have hysplit : ((H + th - 1) / th - 1) * th + th = ((H + th - 1) / th) * th := by
      have h : (H + th - 1) / th - 1 + 1 = (H + th - 1) / th := by omega
      calc ((H + th - 1) / th - 1) * th + th = ((H + th - 1) / th - 1 + 1) * th := by ring
        _ = ((H + th - 1) / th) * th := by rw [h]
    have hx1 : (if i = (W + tw - 1) / tw - 1 then W else i * tw + tw) ≤ W ∧
        i * tw < (if i = (W + tw - 1) / tw - 1 then W else i * tw + tw) ∧
        (if i = (W + tw - 1) / tw - 1 then W else i * tw + tw) ≤ i * tw + tw ∧
        ((if i = (W + tw - 1) / tw - 1 then W else i * tw + tw) ≠ W →
          (if i = (W + tw - 1) / tw - 1 then W else i * tw + tw) = i * tw + tw) := by
      by_cases hlast : i = (W + tw - 1) / tw - 1
      · rw [if_pos hlast]
        subst hlast
        refine ⟨le_refl W, by omega, by omega, fun hne => absurd rfl hne⟩
      · rw [if_neg hlast]
        have h1 : (i + 1) * tw ≤ ((W + tw - 1) / tw - 1) * tw :=
          Nat.mul_le_mul_right tw (by omega)
        rw [Nat.succ_mul] at h1
        refine ⟨by omega, by omega, le_refl _, fun _ => rfl⟩
    have hy1 : (if j = (H + th - 1) / th - 1 then H else j * th + th) ≤ H ∧
        j * th < (if j = (H + th - 1) / th - 1 then H else j * th + th) ∧
        (if j = (H + th - 1) / th - 1 then H else j * th + th) ≤ j * th + th ∧
        ((if j = (H + th - 1) / th - 1 then H else j * th + th) ≠ H →
          (if j = (H + th - 1) / th - 1 then H else j * th + th) = j * th + th) := by
      by_cases hlast : j = (H + th - 1) / th - 1
      · rw [if_pos hlast]
        subst hlast
        refine ⟨le_refl H, by omega, by omega, fun hne => absurd rfl hne⟩
      · rw [if_neg hlast]
        have h1 : (j + 1) * th ≤ ((H + th - 1) / th - 1) * th :=
          Nat.mul_le_mul_right th (by omega)
        rw [Nat.succ_mul] at h1
        refine ⟨by omega, by omega, le_refl _, fun _ => rfl⟩
    exact ⟨hx1.1, hy1.1, hx1.2.1, hy1.2.1, hx1.2.2.1, hy1.2.2.1,
      hx1.2.2.2, hy1.2.2.2⟩

/-- Witness for C9: the 5×3 image tiled 2×2 (clipped last column of width 1,
clipped last row of height 1), instantiated at pixel (4, 2). -/
theorem c9_witness :
    (prepare_tiles 5 3 2 2).countP (fun t => tile_contains t 4 2) = 1 :=
  (c9_prepare_tiles_partition 5 3 2 2 (by norm_num) (by norm_num) (by norm_num)
    (by norm_num)).1 4 2 (by norm_num) (by norm_num)

/-! ### Interpolation bounds (towards C2)

`lut_lerp` produces convex combinations of adjacent node values, so a scaled
pointwise inequality between two tables over the same key grid transfers to
their interpolants, and a lower bound on all node values transfers to the
interpolant. -/

theorem lut_keys_sorted_tail (e : ℝ × ℝ) (l : List (ℝ × ℝ))
    (h : lut_keys_sorted (e :: l)) : lut_keys_sorted l := by
  cases l with
  | nil => trivial
  | cons e2 tl =>
    obtain ⟨e2k, e2v⟩ := e2
    obtain ⟨ek, ev⟩ := e
    exact h.2

theorem lut_lerp_scan_pair_le (A B x : ℝ) :
    ∀ (ps ts : List (ℝ × ℝ)) (k0 vp vt : ℝ),
      lut_pair_le A B ps ts → lut_keys_sorted ((k0, vp) :: ps) → k0 ≤ x →
      A * vp ≤ B * vt →
      A * lut_lerp_scan x (k0, vp) ps ≤ B * lut_lerp_scan x (k0, vt) ts := by
  intro ps
  induction ps with
  | nil =>
    intro ts k0 vp vt hpair _ _ hprev
    cases ts with
    | nil => exact hprev
    | cons e tl =>
      obtain ⟨ek, ev⟩ := e
      exact absurd hpair (by simp [lut_pair_le])
  | cons e ps2 ih =>
    obtain ⟨k, pv⟩ := e
    intro ts k0 vp vt hpair hsort hk0 hprev
    cases ts with
    | nil => exact absurd hpair (by simp [lut_pair_le])
    | cons e2 ts2 =>
      obtain ⟨kt, tv⟩ := e2
      obtain ⟨hkeq, hnode, hrest⟩ := hpair
      subst hkeq
      have hk0k : k0 < k := hsort.1
      simp only [lut_lerp_scan]
      by_cases hxk : x ≤ k
      · rw [if_pos hxk, if_pos hxk]
        have hw0 : 0 ≤ (x - k0) / (k - k0) :=
          div_nonneg (by linarith) (by linarith)
        have hw1 : (x - k0) / (k - k0) ≤ 1 := by
          rw [div_le_one (by linarith)]
          linarith
        have hleft : A * (vp + (pv - vp) * (x - k0) / (k - k0))
            = (1 - (x - k0) / (k - k0)) * (A * vp)
              + ((x - k0) / (k - k0)) * (A * pv) := by ring
        have hright : B * (vt + (tv - vt) * (x - k0) / (k - k0))
            = (1 - (x - k0) / (k - k0)) * (B * vt)
              + ((x - k0) / (k - k0)) * (B * tv) := by ring
        rw [hleft, hright]
        exact add_le_add
          (mul_le_mul_of_nonneg_left hprev (by linarith))
          (mul_le_mul_of_nonneg_left hnode hw0)
      · rw [if_neg hxk, if_neg hxk]
        exact ih ts2 k pv tv hrest (lut_keys_sorted_tail _ _ hsort)
          (by linarith) hnode

/-- A scaled pointwise inequality between two tables with the same keys
transfers to `lut_lerp` at every query point. -/
theorem lut_lerp_pair_le (A B : ℝ) (ps ts : List (ℝ × ℝ)) (x : ℝ)
    (hpair : lut_pair_le A B ps ts) (hsort : lut_keys_sorted ps) :
    A * lut_lerp ps x ≤ B * lut_lerp ts x := by
  cases ps with
  | nil =>
    cases ts with
    | nil => simp [lut_lerp]
    | cons e tl =>
      obtain ⟨ek, ev⟩ := e
      exact absurd hpair (by simp [lut_pair_le])
  | cons e ps2 =>
    obtain ⟨k0, vp⟩ := e
    cases ts with
    | nil => exact absurd hpair (by simp [lut_pair_le])
    | cons e2 ts2 =>
      obtain ⟨kt, vt⟩ := e2
      obtain ⟨hkeq, hnode, hrest⟩ := hpair
      subst hkeq
      simp only [lut_lerp]
      by_cases hx : x < k0
      · rw [if_pos hx, if_pos hx]
        exact hnode
      · rw [if_neg hx, if_neg hx]
        exact lut_lerp_scan_pair_le A B x ps2 ts2 k0 vp vt hrest hsort
          (not_lt.mp hx) hnode

theorem lut_lerp_scan_lower (c x : ℝ) :
    ∀ (ps : List (ℝ × ℝ)) (k0 v0 : ℝ),
      lut_value_lower_bound c ps → lut_keys_sorted ((k0, v0) :: ps) → k0 ≤ x →
      c ≤ v0 → c ≤ lut_lerp_scan x (k0, v0) ps := by
  intro ps
  induction ps with
  | nil =>
    intro k0 v0 _ _ _ hprev
    exact hprev
  | cons e ps2 ih =>
    obtain ⟨k, v⟩ := e
    intro k0 v0 hlb hsort hk0 hprev
    have hk0k : k0 < k := hsort.1
    simp only [lut_lerp_scan]
    by_cases hxk : x ≤ k
    · rw [if_pos hxk]
      have hw0 : 0 ≤ (x - k0) / (k - k0) :=
        div_nonneg (by linarith) (by linarith)
      have hw1 : (x - k0) / (k - k0) ≤ 1 := by
        rw [div_le_one (by linarith)]
        linarith
      have hval : v0 + (v - v0) * (x - k0) / (k - k0)
          = (1 - (x - k0) / (k - k0)) * v0 + ((x - k0) / (k - k0)) * v := by ring
      rw [hval]
      calc c = (1 - (x - k0) / (k - k0)) * c + ((x - k0) / (k - k0)) * c := by ring
        _ ≤ (1 - (x - k0) / (k - k0)) * v0 + ((x - k0) / (k - k0)) * v :=
          add_le_add (mul_le_mul_of_nonneg_left hprev (by linarith))
            (mul_le_mul_of_nonneg_left hlb.1 hw0)
    · rw [if_neg hxk]
      exact ih k v hlb.2 (lut_keys_sorted_tail _ _ hsort) (by linarith) hlb.1

/-- A lower bound on all values of a (nonempty) table transfers to `lut_lerp`
at every query point. -/
theorem lut_lerp_lower (c x k0 v0 : ℝ) (tl : List (ℝ × ℝ))
    (hlb : lut_value_lower_bound c ((k0, v0) :: tl))
    (hsort : lut_keys_sorted ((k0, v0) :: tl)) :
    c ≤ lut_lerp ((k0, v0) :: tl) x := by
  simp only [lut_lerp]
  by_cases hx : x < k0
  · rw [if_pos hx]
    exact hlb.1
  · rw [if_neg hx]
    exact lut_lerp_scan_lower c x tl k0 v0 hlb.2 hsort (not_lt.mp hx) hlb.1

/-- For query points past the second key, the first table entry is
irrelevant. -/
theorem lut_lerp_peel (k0 v0 k1 v1 : ℝ) (tl : List (ℝ × ℝ)) (x : ℝ)
    (hsort : lut_keys_sorted ((k0, v0) :: (k1, v1) :: tl)) (hx : k1 ≤ x) :
    lut_lerp ((k0, v0) :: (k1, v1) :: tl) x = lut_lerp ((k1, v1) :: tl) x := by
  have hk01 : k0 < k1 := hsort.1
  simp only [lut_lerp, lut_lerp_scan]
  rw [if_neg (by push_neg; linarith : ¬ x < k0)]
  by_cases hxk1 : x ≤ k1
  · have hxeq : x = k1 := le_antisymm hxk1 hx
    rw [if_pos hxk1, if_neg (by push_neg; linarith : ¬ x < k1)]
    subst hxeq
    have hinterp : v0 + (v1 - v0) * (x - k0) / (x - k0) = v1 := by
      rw [mul_div_assoc, div_self (by linarith : x - k0 ≠ 0), mul_one]
      ring
    rw [hinterp]
    cases tl with
    | nil => rfl
    | cons e tl2 =>
      obtain ⟨k2, v2⟩ := e
      have hk12 : x < k2 := hsort.2.1
      simp only [lut_lerp_scan]
      rw [if_pos hk12.le]
      rw [sub_self, mul_zero, zero_div, add_zero]
  · rw [if_neg hxk1, if_neg (by push_neg; linarith : ¬ x < k1)]

/-! ### Concrete facts about the standard-atmosphere tables -/

theorem temperature_lut_sorted :
    lut_keys_sorted standard_atmosphere_temperature_lut := by
  norm_num [standard_atmosphere_temperature_lut, lut_keys_sorted]

theorem pressure_lut_sorted :
    lut_keys_sorted standard_atmosphere_pressure_lut := by
  norm_num [standard_atmosphere_pressure_lut, lut_keys_sorted]

/-- At every node of the standard-atmosphere grid, `Ts · P ≤ Ps · T`: the
pressure/temperature ratio is largest at ground level. -/
theorem pt_pair_le_ground :
    lut_pair_le 288.15 101325.0 standard_atmosphere_pressure_lut
      standard_atmosphere_temperature_lut := by
  norm_num [standard_atmosphere_pressure_lut, standard_atmosphere_temperature_lut,
    lut_pair_le]

/-- All standard-atmosphere temperatures are at least 186.946 K. -/
theorem temperature_lut_lower :
    lut_value_lower_bound 186.946 standard_atmosphere_temperature_lut := by
  norm_num [standard_atmosphere_temperature_lut, lut_value_lower_bound]

/-- Above the 9 km node the pressure/temperature ratio is bounded by its value
at 9 km: `T(9km) · P(x) ≤ P(9km) · T(x)` for every `x ≥ 9` (km). -/
theorem pt_ratio_le_at_9km (x : ℝ) (hx : 9 ≤ x) :
    229.65 * lut_lerp standard_atmosphere_pressure_lut x
      ≤ 30742.5 * lut_lerp standard_atmosphere_temperature_lut x := by
  have hsP : lut_keys_sorted standard_atmosphere_pressure_lut := pressure_lut_sorted
  have hsT : lut_keys_sorted standard_atmosphere_temperature_lut :=
    temperature_lut_sorted
  simp only [standard_atmosphere_pressure_lut] at hsP ⊢
  simp only [standard_atmosphere_temperature_lut] at hsT ⊢
  rw [lut_lerp_peel _ _ _ _ _ x hsP (by linarith)]
  have hsP1 := lut_keys_sorted_tail _ _ hsP
  rw [lut_lerp_peel _ _ _ _ _ x hsP1 (by linarith)]
  have hsP2 := lut_keys_sorted_tail _ _ hsP1
  rw [lut_lerp_peel _ _ _ _ _ x hsP2 (by linarith)]
  have hsP3 := lut_keys_sorted_tail _ _ hsP2
  rw [lut_lerp_peel _ _ _ _ _ x hsP3 (by linarith)]
  have hsP4 := lut_keys_sorted_tail _ _ hsP3
  rw [lut_lerp_peel _ _ _ _ _ x hsP4 (by linarith)]
  have hsP5 := lut_keys_sorted_tail _ _ hsP4
  rw [lut_lerp_peel _ _ _ _ _ x hsP5 (by linarith)]
  have hsP6 := lut_keys_sorted_tail _ _ hsP5
  rw [lut_lerp_peel _ _ _ _ _ x hsP6 (by linarith)]
  have hsP7 := lut_keys_sorted_tail _ _ hsP6
  rw [lut_lerp_peel _ _ _ _ _ x hsP7 (by linarith)]
  have hsP8 := lut_keys_sorted_tail _ _ hsP7
  rw [lut_lerp_peel _ _ _ _ _ x hsP8 (by linarith)]
  rw [lut_lerp_peel _ _ _ _ _ x hsT (by linarith)]
  have hsT1 := lut_keys_sorted_tail _ _ hsT
  rw [lut_lerp_peel _ _ _ _ _ x hsT1 (by linarith)]
  have hsT2 := lut_keys_sorted_tail _ _ hsT1
  rw [lut_lerp_peel _ _ _ _ _ x hsT2 (by linarith)]
  have hsT3 := lut_keys_sorted_tail _ _ hsT2
  rw [lut_lerp_peel _ _ _ _ _ x hsT3 (by linarith)]
  have hsT4 := lut_keys_sorted_tail _ _ hsT3
  rw [lut_lerp_peel _ _ _ _ _ x hsT4 (by linarith)]
  have hsT5 := lut_keys_sorted_tail _ _ hsT4
  rw [lut_lerp_peel _ _ _ _ _ x hsT5 (by linarith)]
  have hsT6 := lut_keys_sorted_tail _ _ hsT5
  rw [lut_lerp_peel _ _ _ _ _ x hsT6 (by linarith)]
  have hsT7 := lut_keys_sorted_tail _ _ hsT6
  rw [lut_lerp_peel _ _ _ _ _ x hsT7 (by linarith)]
  have hsT8 := lut_keys_sorted_tail _ _ hsT7
  rw [lut_lerp_peel _ _ _ _ _ x hsT8 (by linarith)]
  have hsP9 := lut_keys_sorted_tail _ _ hsP8
  refine lut_lerp_pair_le 229.65 30742.5 _ _ x ?_ hsP9
  norm_num [lut_pair_le]

theorem temperature_lut_ge (x : ℝ) :
    186.946 ≤ lut_lerp standard_atmosphere_temperature_lut x := by
  have h1 := temperature_lut_lower
  have h2 := temperature_lut_sorted
  simp only [standard_atmosphere_temperature_lut] at h1 h2 ⊢
  exact lut_lerp_lower _ x _ _ _ h1 h2

theorem rayleigh_lut_at_550 :
    lut_lerp rayleigh_volume_scattering_lut 550 = 1.149e-2 := by
  norm_num [rayleigh_volume_scattering_lut, lut_lerp, lut_lerp_scan]

theorem rayleigh_lut_at_4000 :
    lut_lerp rayleigh_volume_scattering_lut 4000 = 3.948e-6 := by
  norm_num [rayleigh_volume_scattering_lut, lut_lerp, lut_lerp_scan]

theorem ozone_lut_at_550 :
    lut_lerp ozone_cross_section_lut 550 = 11298 / 33 * 1e-23 := by
  norm_num [ozone_cross_section_lut, lut_lerp, lut_lerp_scan]

theorem ozone_lut_at_4000 :
    lut_lerp ozone_cross_section_lut 4000 = 0.0773e-22 := by
  norm_num [ozone_cross_section_lut, lut_lerp, lut_lerp_scan]

theorem temperature_lut_at_20 :
    lut_lerp standard_atmosphere_temperature_lut 20 = 216.65 := by
  norm_num [standard_atmosphere_temperature_lut, lut_lerp, lut_lerp_scan]

theorem pressure_lut_at_20 :
    lut_lerp standard_atmosphere_pressure_lut 20 = 5474.89 := by
  norm_num [standard_atmosphere_pressure_lut, lut_lerp, lut_lerp_scan]

/-! ### Bounds on the molecular coefficients at 550 nm -/

theorem molecular_scattering_at_0_550 :
    get_molecular_scattering 0 550 = 1.149e-5 := by
  simp only [get_molecular_scattering]
  rw [show (0 : ℝ) * 1e-3 = 0 by norm_num, rayleigh_lut_at_550,
    temperature_lut_at_0, pressure_lut_at_0]
  norm_num [Ts, Ps]

/-- The molecular scattering coefficient at 550 nm is everywhere at most its
sea-level value. -/
theorem molecular_scattering_le_ground_550 (h : ℝ) :
    get_molecular_scattering h 550 ≤ 1.149e-5 := by
  simp only [get_molecular_scattering]
  rw [rayleigh_lut_at_550]
  have hT := temperature_lut_ge (h * 1e-3)
  have hPT := lut_lerp_pair_le 288.15 101325.0 standard_atmosphere_pressure_lut
    standard_atmosphere_temperature_lut (h * 1e-3) pt_pair_le_ground
    pressure_lut_sorted
  have key : lut_lerp standard_atmosphere_pressure_lut (h * 1e-3) / Ps *
      (Ts / lut_lerp standard_atmosphere_temperature_lut (h * 1e-3)) ≤ 1 := by
    rw [div_mul_div_comm, div_le_one (by unfold Ps; nlinarith)]
    unfold Ts Ps
    nlinarith
  calc 1.149e-2 * (lut_lerp standard_atmosphere_pressure_lut (h * 1e-3) / Ps) *
        (Ts / lut_lerp standard_atmosphere_temperature_lut (h * 1e-3)) * 1e-3
      = (1.149e-2 * 1e-3) *
        (lut_lerp standard_atmosphere_pressure_lut (h * 1e-3) / Ps *
          (Ts / lut_lerp standard_atmosphere_temperature_lut (h * 1e-3))) := by
        ring
    _ ≤ (1.149e-2 * 1e-3) * 1 := by
        exact mul_le_mul_of_nonneg_left key (by norm_num)
    _ = 1.149e-5 := by norm_num

/-- Above 9 km the molecular scattering coefficient at 550 nm is at most its
value at the 9 km node. -/
theorem molecular_scattering_le_9km_550 (h : ℝ) (hh : 9000 ≤ h) :
    get_molecular_scattering h 550 ≤
      1.149e-2 * (30742.5 / 101325) * (288.15 / 229.65) * 1e-3 := by
  simp only [get_molecular_scattering]
  rw [rayleigh_lut_at_550]
  have hT := temperature_lut_ge (h * 1e-3)
  have hPT := pt_ratio_le_at_9km (h * 1e-3) (by linarith)
  have key : lut_lerp standard_atmosphere_pressure_lut (h * 1e-3) / Ps *
      (Ts / lut_lerp standard_atmosphere_temperature_lut (h * 1e-3)) ≤
      30742.5 / 101325 * (288.15 / 229.65) := by
    rw [div_mul_div_comm, div_mul_div_comm]
    rw [div_le_div_iff (by unfold Ps; nlinarith) (by norm_num)]
    unfold Ts Ps
    nlinarith
  calc 1.149e-2 * (lut_lerp standard_atmosphere_pressure_lut (h * 1e-3) / Ps) *
        (Ts / lut_lerp standard_atmosphere_temperature_lut (h * 1e-3)) * 1e-3
      = (1.149e-2 * 1e-3) *
        (lut_lerp standard_atmosphere_pressure_lut (h * 1e-3) / Ps *
          (Ts / lut_lerp standard_atmosphere_temperature_lut (h * 1e-3))) := by
        ring
    _ ≤ (1.149e-2 * 1e-3) * (30742.5 / 101325 * (288.15 / 229.65)) := by
        exact mul_le_mul_of_nonneg_left key (by norm_num)
    _ = 1.149e-2 * (30742.5 / 101325) * (288.15 / 229.65) * 1e-3 := by ring

/-! ### Bounds on the molecular (ozone) absorption -/

theorem ozone_distribution_le (h : ℝ) :
    get_ozone_height_distribution h ≤ 111 / 210 := by
  unfold get_ozone_height_distribution
  split_ifs <;> norm_num

theorem ozone_distribution_nonneg (h : ℝ) :
    0 ≤ get_ozone_height_distribution h := by
  unfold get_ozone_height_distribution
  split_ifs <;> norm_num

theorem ozone_distribution_low (h : ℝ) (hh : h ≤ 9000) :
    get_ozone_height_distribution h = 9 / 210 := by
  unfold get_ozone_height_distribution
  rw [if_pos hh]

theorem dobson_bounds (m : Fin 12) :
    285 ≤ ozone_mean_monthly_dobson m ∧ ozone_mean_monthly_dobson m ≤ 384 := by
  fin_cases m <;> norm_num [ozone_mean_monthly_dobson]

/-- Below 9 km the ozone absorption equals its sea-level value. -/
theorem molecular_absorption_low (m : Fin 12) (h wl : ℝ) (hh : h ≤ 9000) :
    get_molecular_absorption m h wl = get_molecular_absorption m 0 wl := by
  simp only [get_molecular_absorption]
  rw [ozone_distribution_low h hh, ozone_distribution_low 0 (by norm_num)]

theorem molecular_absorption_nonneg_550 (m : Fin 12) (h : ℝ) :
    0 ≤ get_molecular_absorption m h 550 := by
  simp only [get_molecular_absorption]
  rw [ozone_lut_at_550]
  have h1 := ozone_distribution_nonneg h
  have h2 := (dobson_bounds m).1
  positivity

/-- The ozone absorption at 550 nm never exceeds the peak-band value for the
largest monthly column. -/
theorem molecular_absorption_le_550 (m : Fin 12) (h : ℝ) :
    get_molecular_absorption m h 550 ≤
      (11298 / 33 * 1e-23 * 1e-4) * (111 / 210 * (384 * 2.6867e20) / 9e3) := by
  simp only [get_molecular_absorption]
  rw [ozone_lut_at_550]
  have h1 := ozone_distribution_le h
  have h2 := ozone_distribution_nonneg h
  have h3 := (dobson_bounds m).1
  have h4 := (dobson_bounds m).2
  have hstep : get_ozone_height_distribution h * (ozone_mean_monthly_dobson m * 2.6867e20)
      ≤ 111 / 210 * (384 * 2.6867e20) := by nlinarith
  have hdiv : get_ozone_height_distribution h *
        (ozone_mean_monthly_dobson m * 2.6867e20) / 9e3
      ≤ 111 / 210 * (384 * 2.6867e20) / 9e3 := by linarith
  calc 11298 / 33 * 1e-23 * 1e-4 *
        (get_ozone_height_distribution h * (ozone_mean_monthly_dobson m * 2.6867e20) / 9e3)
      ≤ 11298 / 33 * 1e-23 * 1e-4 * (111 / 210 * (384 * 2.6867e20) / 9e3) :=
        mul_le_mul_of_nonneg_left hdiv (by norm_num)
    _ = (11298 / 33 * 1e-23 * 1e-4) * (111 / 210 * (384 * 2.6867e20) / 9e3) := by ring

/-- An exponential-profile aerosol with positive scale height and physical
(nonnegative) parameters has its largest extinction at ground level. -/
theorem aerosol_extinction_le_ground (a : Aerosol) (h wl : ℝ) (hh : 0 ≤ h)
    (hscale : 0 < a.height_scale) (hbase : 0 ≤ a.base_density)
    (hbg : 0 ≤ a.background_divided_by_base_density) (hturb : 0 ≤ a.turbidity)
    (habs : 0 ≤ a.absorption_cross_section wl)
    (hsca : 0 ≤ a.scattering_cross_section wl) :
    a.get_extinction h wl ≤ a.get_extinction 0 wl := by
  have hdens : a.get_density h ≤ a.get_density 0 := by
    unfold Aerosol.get_density
    have hexp : Real.exp (-(h * 1e-3) / a.height_scale)
        ≤ Real.exp (-(0 * 1e-3) / a.height_scale) := by
      apply Real.exp_le_exp.mpr
      rw [zero_mul, neg_zero, zero_div]
      apply div_nonpos_of_nonpos_of_nonneg (by linarith) hscale.le
    nlinarith [hexp]
  have hdens0 : 0 ≤ a.get_density h := by
    unfold Aerosol.get_density
    have := (Real.exp_pos (-(h * 1e-3) / a.height_scale)).le
    nlinarith
  unfold Aerosol.get_extinction
  have hxs : 0 ≤ a.absorption_cross_section wl + a.scattering_cross_section wl := by
    linarith
  have h1 : (a.absorption_cross_section wl + a.scattering_cross_section wl) *
      a.get_density h ≤
      (a.absorption_cross_section wl + a.scattering_cross_section wl) *
      a.get_density 0 := mul_le_mul_of_nonneg_left hdens hxs
  calc (a.absorption_cross_section wl + a.scattering_cross_section wl) *
        a.get_density h * a.turbidity * 1e-3
      = ((a.absorption_cross_section wl + a.scattering_cross_section wl) *
          a.get_density h) * (a.turbidity * 1e-3) := by ring
    _ ≤ ((a.absorption_cross_section wl + a.scattering_cross_section wl) *
          a.get_density 0) * (a.turbidity * 1e-3) :=
        mul_le_mul_of_nonneg_right h1 (mul_nonneg hturb (by norm_num))
    _ = (a.absorption_cross_section wl + a.scattering_cross_section wl) *
          a.get_density 0 * a.turbidity * 1e-3 := by ring

/-! ### Majorant validity (C2) -/

/-- Counterexample for C2 as frozen: at wavelength 4000 nm (where the ozone
cross-section table has saturated and Rayleigh scattering is tiny) a
molecular-only January atmosphere has `get_extinction(20000, 4000)` strictly
greater than the ground-level majorant `get_max_extinction(4000)`: the ozone
density in the 18-27 km band exceeds the ground band by a factor 111/9, which
overwhelms the decayed Rayleigh term, so the claimed majorant inequality fails
for this wavelength. -/
theorem c2_counterexample_4000nm :
    bare_january_atmosphere.get_max_extinction 4000 <
      bare_january_atmosphere.get_extinction 20000 4000 := by
  unfold GuimeraAtmosphere.get_max_extinction GuimeraAtmosphere.get_extinction
  simp only [bare_january_atmosphere]
  have hd20 : get_ozone_height_distribution 20000 = 111 / 210 := by
    norm_num [get_ozone_height_distribution]
  simp only [get_molecular_scattering, get_molecular_absorption]
  rw [show (0 : ℝ) * 1e-3 = 0 by norm_num, show (20000 : ℝ) * 1e-3 = 20 by norm_num]
  rw [rayleigh_lut_at_4000, ozone_lut_at_4000, temperature_lut_at_0,
    pressure_lut_at_0, temperature_lut_at_20, pressure_lut_at_20,
    hd20, ozone_distribution_low 0 (by norm_num)]
  norm_num [ozone_mean_monthly_dobson, Ts, Ps]

/-- C2 (amended): restricted to wavelength 550 nm, the ground-level majorant
`get_max_extinction(550)` dominates `get_extinction(h, 550)` for every height
`h` in `[0, ATMOSPHERE_THICKNESS]` and every month, both with no aerosol and
with any configured aerosol that has a positive scale height and nonnegative
base density, background ratio, turbidity and cross sections (the
exponential-profile aerosols of the source with physical parameters).  The
original claim, quantified over all wavelengths, is refuted by
`c2_counterexample_4000nm`. -/
theorem c2_majorant_dominates_at_550nm (g : GuimeraAtmosphere) (h : ℝ)
    (hh0 : 0 ≤ h) (hh1 : h ≤ ATMOSPHERE_THICKNESS)
    (haero : ∀ a, g.aerosol = some a →
      0 < a.height_scale ∧ 0 ≤ a.base_density ∧
      0 ≤ a.background_divided_by_base_density ∧ 0 ≤ a.turbidity ∧
      0 ≤ a.absorption_cross_section 550 ∧ 0 ≤ a.scattering_cross_section 550) :
    g.get_extinction h 550 ≤ g.get_max_extinction 550 := by
  unfold GuimeraAtmosphere.get_max_extinction GuimeraAtmosphere.get_extinction
  have haer : (match g.aerosol with
      | none => (0 : ℝ)
      | some a => a.get_extinction h 550) ≤
      (match g.aerosol with
      | none => (0 : ℝ)
      | some a => a.get_extinction 0 550) := by
    cases hcase : g.aerosol with
    | none => exact le_refl 0
    | some a =>
      obtain ⟨h1, h2, h3, h4, h5, h6⟩ := haero a hcase
      exact aerosol_extinction_le_ground a h 550 hh0 h1 h2 h3 h4 h5 h6
  rw [molecular_scattering_at_0_550]
  rcases le_or_lt h 9000 with hcase | hcase
  · have hs := molecular_scattering_le_ground_550 h
    rw [molecular_absorption_low g.month h 550 hcase]
    linarith
  · have hs := molecular_scattering_le_9km_550 h (by linarith)
    have ha := molecular_absorption_le_550 g.month h
    have ha0 := molecular_absorption_nonneg_550 g.month 0
    have hnum : 1.149e-2 * (30742.5 / 101325) * (288.15 / 229.65) * 1e-3 +
        (11298 / 33 * 1e-23 * 1e-4) * (111 / 210 * (384 * 2.6867e20) / 9e3)
        ≤ (1.149e-5 : ℝ) := by norm_num
    linarith

/-- Witness for C2 (amended) at the concrete height 20 km in the
molecular-only January atmosphere. -/
theorem c2_witness :
    (0 : ℝ) ≤ 20000 ∧ (20000 : ℝ) ≤ ATMOSPHERE_THICKNESS ∧
    bare_january_atmosphere.get_extinction 20000 550 ≤
      bare_january_atmosphere.get_max_extinction 550 :=
  ⟨by norm_num, by norm_num [ATMOSPHERE_THICKNESS],
    c2_majorant_dominates_at_550nm bare_january_atmosphere 20000 (by norm_num)
      (by norm_num [ATMOSPHERE_THICKNESS])
      (fun a ha => by simp [bare_january_atmosphere] at ha)⟩

end Skytracer
